import Mathlib

/-!
Verification of the aging/outstanding aggregator and the sale-order
dispatch-status linker of `src/lib/zoho.ts`.

The TypeScript code is shallowly embedded: JSON numbers are modelled as
rationals (`ℚ`), possibly-missing JSON fields as `Option`, millisecond
timestamps (`Date.getTime()`) as `Int`, and the host function `Date.parse`
as an explicit parameter `dparse : String → Option Int` (`none` models a
`NaN` parse result).  JavaScript coalescing operators are modelled
explicitly: `x ?? y` on options is `Option.orElse` / `Option.getD`, and
`x || y` is the truthiness-sensitive `jsOrQ` / `jsOrS` below (`0`, `""`,
`null`/`undefined` are falsy).
-/

set_option maxHeartbeats 1000000

namespace Zoho

/-- Model of the JavaScript `a || b` on an optional number: a present
nonzero value wins, otherwise the fallback is used (`0`, `null`,
`undefined` and `NaN` are falsy). -/
def jsOrQ (a : Option ℚ) (b : ℚ) : ℚ :=
  match a with
  | some x => if x = 0 then b else x
  | none => b

/-- Model of the JavaScript `a || b` on a number that is always present. -/
def jsNumOr (a b : ℚ) : ℚ := if a = 0 then b else a

/-- Model of the JavaScript `a || b` producing a string: an empty or
missing `a` falls through to `b`. -/
def jsOrS (a : Option String) (b : String) : String :=
  match a with
  | some s => if s = "" then b else s
  | none => b

/-- Model of the JavaScript `a || b` on two optional strings, keeping the
result optional. -/
def jsOrSO (a b : Option String) : Option String :=
  match a with
  | some s => if s = "" then b else some s
  | none => b

/-- Model of the JavaScript `a || b` on two present strings. -/
def strOr (a b : String) : String := if a = "" then b else a

/-- Model of `safeNum` from `zoho.ts` applied to a possibly missing JSON
number: `Number(x)` of a missing field is `NaN`, which `safeNum` maps
to `0`. -/
def safeNum (x : Option ℚ) : ℚ := x.getD 0

/-- Lexicographic order on character lists; `charListLe a b` models
`a.localeCompare(b) <= 0` for the code-point strings the code sorts
(ISO dates and similar ASCII keys). -/
def charListLe : List Char → List Char → Bool
  | [], _ => true
  | _ :: _, [] => false
  | a :: as, b :: bs =>
    if a < b then true else if b < a then false else charListLe as bs

/-- String comparison used for the `localeCompare`-based ascending sorts. -/
def lcLe (a b : String) : Bool := charListLe a.data b.data

/-- Substring test (`s.includes(pat)` in JavaScript). -/
def strContains (s pat : String) : Bool :=
  s.data.tails.any (fun t => pat.data.isPrefixOf t)

/-- Machine epsilon of IEEE doubles, `Number.EPSILON` in JavaScript. -/
def epsilonQ : ℚ := 1 / 2 ^ 52

/-- The helper `round2` of `zoho.ts`:
`Math.round((x + Number.EPSILON) * 100) / 100`, i.e. round-half-up on
cents.  `Math.round x = ⌊x + 1/2⌋`, which is Mathlib `round`. -/
def round2 (x : ℚ) : ℚ := (round ((x + epsilonQ) * 100) : ℤ) / 100

/-- Environment holding the ambient date state of `zoho.ts`: `today`
models `TODAY.getTime()` in milliseconds, and `dparse` models the host
`Date.parse` (returning `none` for an unparseable string). -/
structure DateEnv where
  today : Int
  dparse : String → Option Int

/-- The helper `parseISO` of `zoho.ts`: a missing or empty string is
falsy and yields `null`; otherwise `Date.parse` decides. -/
def parseISO (env : DateEnv) (d : Option String) : Option Int :=
  match d with
  | none => none
  | some s => if s = "" then none else env.dparse s

/-- The helper `daysBetween` of `zoho.ts`:
`Math.floor((a.getTime() - b.getTime()) / (24 * 3600 * 1000))`.
Floor division of the millisecond difference is `Int.fdiv`. -/
def daysBetween (a b : Int) : Int := (a - b).fdiv (24 * 3600 * 1000)

/-- The `BUCKETS` table of `zoho.ts`: inclusive day ranges with their
column labels.  The last upper bound in the source is the sentinel
`1e9`. -/
def BUCKETS : List (Int × Int × String) :=
  [ (0, 15, "0-15"),
    (16, 30, "16-30"),
    (31, 45, "31-45"),
    (46, 60, "46-60"),
    (61, 90, "61-90"),
    (91, 120, "91-120"),
    (121, 150, "121-150"),
    (151, 180, "151-180"),
    (181, 365, "181-365"),
    (366, 730, "366-730"),
    (731, 1000000000, "Above_730") ]

/-- The linear scan inside `bucketIndex`: return the index of the first
bucket whose inclusive range contains `days`, else fall through. -/
def bucketScan (days : Int) : List (Int × Int × String) → Nat → Nat
  | [], _ => BUCKETS.length - 1
  | (lo, hi, _) :: rest, i =>
    if lo ≤ days ∧ days ≤ hi then i else bucketScan days rest (i + 1)

/-- The helper `bucketIndex` of `zoho.ts`: first matching bucket, with
fallback to the last bucket when no range matches. -/
def bucketIndex (days : Int) : Nat := bucketScan days BUCKETS 0

/-- The bucket labels, `BUCKETS.map((b) => b[2])` in the source. -/
def bucketKeys : List String := BUCKETS.map (fun b => b.2.2)

/-- Index of a bucket label in `bucketKeys` (`bucketKeys.indexOf`). -/
def idxOfKey (k : String) : Nat := bucketKeys.findIdx (fun s => s == k)

/-- Bucket membership exactly as the specification words it: the day
ranges [0,15], [16,30], [31,45], [46,60], [61,90], [91,120], [121,150],
[151,180], [181,365], [366,730] and [731,∞), the last one unbounded. -/
def specBucketRange (i : Nat) (d : Int) : Prop :=
  match i with
  | 0 => 0 ≤ d ∧ d ≤ 15
  | 1 => 16 ≤ d ∧ d ≤ 30
  | 2 => 31 ≤ d ∧ d ≤ 45
  | 3 => 46 ≤ d ∧ d ≤ 60
  | 4 => 61 ≤ d ∧ d ≤ 90
  | 5 => 91 ≤ d ∧ d ≤ 120
  | 6 => 121 ≤ d ∧ d ≤ 150
  | 7 => 151 ≤ d ∧ d ≤ 180
  | 8 => 181 ≤ d ∧ d ≤ 365
  | 9 => 366 ≤ d ∧ d ≤ 730
  | 10 => 731 ≤ d
  | _ => False

set_option maxHeartbeats 1000000 in
theorem bucketIndex_eq (d : Int) : bucketIndex d =
    if 0 ≤ d ∧ d ≤ 15 then 0
    else if 16 ≤ d ∧ d ≤ 30 then 1
    else if 31 ≤ d ∧ d ≤ 45 then 2
    else if 46 ≤ d ∧ d ≤ 60 then 3
    else if 61 ≤ d ∧ d ≤ 90 then 4
    else if 91 ≤ d ∧ d ≤ 120 then 5
    else if 121 ≤ d ∧ d ≤ 150 then 6
    else if 151 ≤ d ∧ d ≤ 180 then 7
    else if 181 ≤ d ∧ d ≤ 365 then 8
    else if 366 ≤ d ∧ d ≤ 730 then 9
    else if 731 ≤ d ∧ d ≤ 1000000000 then 10
    else 10 := by
  simp only [bucketIndex, BUCKETS, bucketScan]
  norm_num

theorem bucketIndex_lt_length (d : Int) : bucketIndex d < BUCKETS.length := by
  rw [bucketIndex_eq]
  simp only [BUCKETS, List.length_cons, List.length_nil]
  split_ifs <;> omega

theorem bucketIndex_spec (d : Int) (hd : 0 ≤ d) :
    specBucketRange (bucketIndex d) d := by
  rw [bucketIndex_eq]
  split_ifs <;> simp only [specBucketRange] <;> omega

theorem specBucketRange_lt (i : Nat) (d : Int) (h : specBucketRange i d) :
    i < 11 := by
  by_contra hlt
  obtain ⟨n, rfl⟩ : ∃ n, i = n + 11 := ⟨i - 11, by omega⟩
  exact h

theorem specBucketRange_unique (d : Int) (i j : Nat)
    (hi : specBucketRange i d) (hj : specBucketRange j d) : i = j := by
  have hi' := specBucketRange_lt i d hi
  have hj' := specBucketRange_lt j d hj
  interval_cases i <;> interval_cases j <;>
    simp only [specBucketRange] at hi hj <;> omega

/-- The four firms of `zoho.ts` (`OrgKey`). -/
inductive OrgKey where
  | PM | MTM | RMD | MURLI
deriving DecidableEq

/-- Grouping mode per firm, from `fetchOutstandingForOrg`:
`org === "PM" ? "PM" : org === "MTM" || org === "RMD" ? "AGENCY" : "NONE"`. -/
inductive GroupMode where
  | PM | AGENCY | NONE
deriving DecidableEq

/-- The `groupMode` selection of `fetchOutstandingForOrg`. -/
def groupMode : OrgKey → GroupMode
  | OrgKey.PM => GroupMode.PM
  | OrgKey.MTM => GroupMode.AGENCY
  | OrgKey.RMD => GroupMode.AGENCY
  | _ => GroupMode.NONE

/-- A contact custom field as read by `getCF` (label plus
`value`/`select_value`). -/
structure ZContactCF where
  label : Option String
  value : Option String
  select_value : Option String
deriving DecidableEq

/-- A Zoho contact, restricted to the fields `fetchOutstandingForOrg`
reads: id, display name, the two address cities, custom fields. -/
structure ZContact where
  contact_id : String
  contact_name : String
  billing_city : Option String
  shipping_city : Option String
  custom_fields : List ZContactCF
deriving DecidableEq

/-- An open invoice as read by `fetchOutstandingForOrg`: id/number/date
plus the alias chains for the total and the outstanding balance. -/
structure ZInvoice where
  invoice_id : Option String
  invoice_number : Option String
  customer_id : Option String
  contact_id : Option String
  date : Option String
  total : Option ℚ
  total_amount : Option ℚ
  amount : Option ℚ
  balance : Option ℚ
  balance_amount : Option ℚ
  outstanding_balance : Option ℚ
deriving DecidableEq

/-- An open credit note (customer reference plus remaining credit). -/
structure ZCreditNote where
  customer_id : Option String
  contact_id : Option String
  remaining_credits : Option ℚ
  balance : Option ℚ
deriving DecidableEq

/-- A customer payment (date, amount, unused portion). -/
structure ZPayment where
  customer_id : Option String
  contact_id : Option String
  date : Option String
  amount : Option ℚ
  unused_amount : Option ℚ
deriving DecidableEq

/-- An advance payment or retainer invoice, with every field name the
`normalizeUnused` fallback chain can read. -/
structure ZAdvance where
  customer_id : Option String
  contact_id : Option String
  unused_amount : Option ℚ
  unapplied_amount : Option ℚ
  unused_balance : Option ℚ
  balance : Option ℚ
  amount : Option ℚ
  total : Option ℚ
  applied_amount : Option ℚ
  applied_amount_total : Option ℚ
deriving DecidableEq

/-- The customer id under which `fetchOutstandingForOrg` indexes a record:
`rec.customer_id || rec.contact_id`, skipped when falsy
(`if (!cid) continue`). -/
def jsCid (customer_id contact_id : Option String) : Option String :=
  match jsOrSO customer_id contact_id with
  | some s => if s = "" then none else some s
  | none => none

/-- Model of the JavaScript `String.prototype.trim`: strip leading and
trailing whitespace code points. -/
def jsTrim (s : String) : String :=
  ⟨((s.data.dropWhile Char.isWhitespace).reverse.dropWhile
    Char.isWhitespace).reverse⟩

/-- The helper `firstCity` of `zoho.ts`: first non-blank of billing city
then shipping city, trimmed. -/
def firstCity (c : ZContact) : String :=
  match [c.billing_city, c.shipping_city].find?
      (fun o => jsTrim (o.getD "") != "") with
  | some o => jsTrim (o.getD "")
  | none => ""

/-- The helper `getCF` of `zoho.ts`: first custom field whose lowercased
label contains the key, returning `value || select_value || ""`. -/
def getCF (c : ZContact) (key : String) : String :=
  match c.custom_fields.find?
      (fun f => strContains ((f.label.getD "").toLower) key) with
  | some f => jsOrS f.value (jsOrS f.select_value "")
  | none => ""

/-- The helper `normalizeUnused` of `zoho.ts`: first present of
`unused_amount`, `unapplied_amount`, `unused_balance`, `balance`, else
`max(0, (amount ?? total) - (applied_amount ?? applied_amount_total))`. -/
def normalizeUnused (d : ZAdvance) : ℚ :=
  match d.unused_amount with
  | some v => v
  | none =>
  match d.unapplied_amount with
  | some v => v
  | none =>
  match d.unused_balance with
  | some v => v
  | none =>
  match d.balance with
  | some v => v
  | none =>
    max 0 (safeNum (d.amount.orElse fun _ => d.total) -
      safeNum (d.applied_amount.orElse fun _ => d.applied_amount_total))

/-- The by-customer invoice index `invByC` built in
`fetchOutstandingForOrg`, represented by its lookup function: the
invoices pushed for key `cid` are exactly the open invoices whose truthy
customer id is `cid`, in fetch order. -/
def invByC (openInvoices : List ZInvoice) (cid : String) : List ZInvoice :=
  openInvoices.filter (fun inv => jsCid inv.customer_id inv.contact_id == some cid)

/-- The by-customer credit-note sum `cnByC`:
accumulates `safeNum(cn.remaining_credits ?? cn.balance)`. -/
def cnByC (creditnotes : List ZCreditNote) (cid : String) : ℚ :=
  (creditnotes.filter (fun cn => jsCid cn.customer_id cn.contact_id == some cid)).foldl
    (fun s cn => s + safeNum (cn.remaining_credits.orElse fun _ => cn.balance)) 0

/-- The by-customer payment index `payByC`, as its lookup function. -/
def payByC (payments : List ZPayment) (cid : String) : List ZPayment :=
  payments.filter (fun p => jsCid p.customer_id p.contact_id == some cid)

/-- The by-customer advance index `advByC`, as its lookup function. -/
def advByC (advances : List ZAdvance) (cid : String) : List ZAdvance :=
  advances.filter (fun a => jsCid a.customer_id a.contact_id == some cid)

/-- The already-fetched data `fetchOutstandingForOrg` aggregates, plus
the ambient date environment and the firm key. -/
structure OutstandingInput where
  env : DateEnv
  org : OrgKey
  contacts : List ZContact
  openInvoices : List ZInvoice
  creditnotes : List ZCreditNote
  payments : List ZPayment
  advances : List ZAdvance

/-- The invoice total used in the bucket loop:
`safeNum(inv.total || inv.total_amount || inv.amount || 0)`. -/
def totalAmountOf (inv : ZInvoice) : ℚ :=
  jsOrQ inv.total (jsOrQ inv.total_amount (jsOrQ inv.amount 0))

/-- The outstanding balance used in the bucket loop:
`safeNum(inv.balance ?? inv.balance_amount ?? inv.outstanding_balance ?? totalAmount)`. -/
def rawBalanceOf (inv : ZInvoice) : ℚ :=
  ((inv.balance.orElse fun _ => inv.balance_amount).orElse
    fun _ => inv.outstanding_balance).getD (totalAmountOf inv)

/-- The invoice age computed in the bucket loop:
`dt ? Math.max(0, daysBetween(TODAY, dt)) : 0`. -/
def ageOf (env : DateEnv) (inv : ZInvoice) : Int :=
  match parseISO env inv.date with
  | some dt => max 0 (daysBetween env.today dt)
  | none => 0

/-- One iteration of the bucket loop of `fetchOutstandingForOrg`: a
positive balance is added at `bucketIndex(age)` when the date parses,
else at `bucketIndex(0)`; the 11-slot `buckets` array is represented by
its indexing function. -/
def applyInvoice (env : DateEnv) (buckets : Nat → ℚ) (inv : ZInvoice) :
    Nat → ℚ :=
  let dt := parseISO env inv.date
  let rawBalance := rawBalanceOf inv
  let age := match dt with
    | some t => max 0 (daysBetween env.today t)
    | none => 0
  if 0 < rawBalance ∧ dt.isSome then
    fun i => if i = bucketIndex age then buckets i + rawBalance else buckets i
  else if 0 < rawBalance then
    fun i => if i = bucketIndex 0 then buckets i + rawBalance else buckets i
  else buckets

/-- The buckets array accumulated for one contact. -/
def contactBuckets (inp : OutstandingInput) (c : ZContact) : Nat → ℚ :=
  (invByC inp.openInvoices c.contact_id).foldl (applyInvoice inp.env) (fun _ => 0)

/-- One row of the per-customer unpaid-invoice detail list
(`OutstandingInvoiceRow` in `zoho.ts`). -/
structure OutstandingInvoiceRow where
  invoiceId : String
  invoiceNumber : String
  invoiceDate : String
  total : ℚ
  balance : ℚ
  age : Int
deriving DecidableEq

/-- The detail row pushed for each invoice in the bucket loop. -/
def invoiceRowOf (env : DateEnv) (inv : ZInvoice) : OutstandingInvoiceRow :=
  { invoiceId := jsOrS inv.invoice_id ""
    invoiceNumber := jsOrS inv.invoice_number (jsOrS inv.invoice_id "")
    invoiceDate := jsOrS inv.date ""
    total := round2 (totalAmountOf inv)
    balance := round2 (rawBalanceOf inv)
    age := ageOf env inv }

/-- Comparator of the per-customer invoice sort:
`a.invoiceDate.localeCompare(b.invoiceDate) <= 0`. -/
def invoiceRowLe (a b : OutstandingInvoiceRow) : Bool :=
  lcLe a.invoiceDate b.invoiceDate

/-- The sorted unpaid detail list stored in `invoicesByCustomer`:
rows with positive rounded balance, ascending by date string. -/
def unpaidInvoicesOf (env : DateEnv) (invs : List ZInvoice) :
    List OutstandingInvoiceRow :=
  (((invs.map (invoiceRowOf env)).filter
    (fun r => decide (0 < r.balance))).mergeSort invoiceRowLe)

/-- Sum of `unused_amount` over a list of payments (`unusedPay`). -/
def unusedPaySum (pays : List ZPayment) : ℚ :=
  pays.foldl (fun s p => s + safeNum p.unused_amount) 0

/-- Sum of `normalizeUnused` over a list of advances (`unusedAdv`). -/
def unusedAdvSum (advs : List ZAdvance) : ℚ :=
  advs.foldl (fun s a => s + normalizeUnused a) 0

/-- The two payment-recency windows accumulated for one contact:
amounts of payments dated 0-15 respectively 16-90 days before today. -/
def payWindows (env : DateEnv) (pays : List ZPayment) : ℚ × ℚ :=
  pays.foldl
    (fun acc p =>
      match parseISO env p.date with
      | none => acc
      | some dt =>
        let days := daysBetween env.today dt
        let amt := safeNum p.amount
        if 0 ≤ days ∧ days ≤ 15 then (acc.1 + amt, acc.2)
        else if 16 ≤ days ∧ days ≤ 90 then (acc.1, acc.2 + amt)
        else acc)
    (0, 0)

/-- The raw (pre-rounding) total outstanding for one contact:
`buckets.reduce((a, b) => a + b, 0)` over the 11 slots. -/
def totalOutOf (inp : OutstandingInput) (c : ZContact) : ℚ :=
  ((List.range BUCKETS.length).map (contactBuckets inp c)).foldl (· + ·) 0

/-- One summary row of the outstanding report (`OutstandingCustomerRow`
in `zoho.ts`); the eleven bucket columns are `b0_15` ... `bAbove_730`,
and the conditional `division`/`agency` columns are options. -/
structure OutstandingCustomerRow where
  customerName : String
  city : String
  division : Option String
  agency : Option String
  b0_15 : ℚ
  b16_30 : ℚ
  b31_45 : ℚ
  b46_60 : ℚ
  b61_90 : ℚ
  b91_120 : ℚ
  b121_150 : ℚ
  b151_180 : ℚ
  b181_365 : ℚ
  b366_730 : ℚ
  bAbove_730 : ℚ
  Above_180 : ℚ
  Total : ℚ
  CN : ℚ
  Payment : ℚ
  Balance : ℚ
  p0_15_payments : ℚ
  p16_90_payments : ℚ
deriving DecidableEq

/-- The per-contact body of the main loop of `fetchOutstandingForOrg`:
compute buckets, sums and windows, prune the all-zero case, and build
the summary row. -/
def contactRow (inp : OutstandingInput) (c : ZContact) :
    Option OutstandingCustomerRow :=
  let buckets := contactBuckets inp c
  let cnSum := cnByC inp.creditnotes c.contact_id
  let totalUnused := unusedPaySum (payByC inp.payments c.contact_id) +
    unusedAdvSum (advByC inp.advances c.contact_id)
  let pw := payWindows inp.env (payByC inp.payments c.contact_id)
  let totalOut := totalOutOf inp c
  let above180 := round2 (buckets (idxOfKey "181-365") +
    buckets (idxOfKey "366-730") + buckets (idxOfKey "Above_730"))
  let balance := round2 (totalOut - (cnSum + totalUnused))
  if totalOut + cnSum + totalUnused + pw.1 + pw.2 = 0 then none
  else some
    { customerName := c.contact_name
      city := firstCity c
      division := if groupMode inp.org = GroupMode.PM then
          some (strOr (getCF c "cf_division") "(No Division)") else none
      agency := if groupMode inp.org = GroupMode.AGENCY then
          some (strOr (getCF c "cf_agency") "(No Agency)") else none
      b0_15 := round2 (buckets (idxOfKey "0-15"))
      b16_30 := round2 (buckets (idxOfKey "16-30"))
      b31_45 := round2 (buckets (idxOfKey "31-45"))
      b46_60 := round2 (buckets (idxOfKey "46-60"))
      b61_90 := round2 (buckets (idxOfKey "61-90"))
      b91_120 := round2 (buckets (idxOfKey "91-120"))
      b121_150 := round2 (buckets (idxOfKey "121-150"))
      b151_180 := round2 (buckets (idxOfKey "151-180"))
      b181_365 := round2 (buckets (idxOfKey "181-365"))
      b366_730 := round2 (buckets (idxOfKey "366-730"))
      bAbove_730 := round2 (buckets (idxOfKey "Above_730"))
      Above_180 := above180
      Total := round2 totalOut
      CN := round2 cnSum
      Payment := round2 totalUnused
      Balance := balance
      p0_15_payments := round2 pw.1
      p16_90_payments := round2 pw.2 }

/-- Assignment into a JavaScript record object: replace the entry in
place when the key exists, else append the new entry at the end. -/
def recordSet {β : Type} : List (String × β) → String → β → List (String × β)
  | [], k, v => [(k, v)]
  | p :: rest, k, v =>
    if p.1 == k then (k, v) :: rest else p :: recordSet rest k v

/-- Key lookup in a JavaScript record object. -/
def recordGet {β : Type} (m : List (String × β)) (k : String) : Option β :=
  (m.find? (fun p => p.1 == k)).map (fun p => p.2)

/-- The pair of mappings `fetchOutstandingForOrg` returns. -/
structure OutstandingResult where
  summary : List (String × OutstandingCustomerRow)
  invoices : List (String × List OutstandingInvoiceRow)

/-- One iteration of the contact loop: the unpaid-invoice detail entry
is stored unconditionally (before the all-zero prune), then the summary
row is stored unless pruned. -/
def outStep (inp : OutstandingInput) (acc : OutstandingResult)
    (c : ZContact) : OutstandingResult :=
  let invMap := recordSet acc.invoices c.contact_name
    (unpaidInvoicesOf inp.env (invByC inp.openInvoices c.contact_id))
  match contactRow inp c with
  | none => { summary := acc.summary, invoices := invMap }
  | some row =>
    { summary := recordSet acc.summary c.contact_name row, invoices := invMap }

/-- The aggregation core of `fetchOutstandingForOrg`: fold the contact
loop over all fetched contacts. -/
def fetchOutstandingCore (inp : OutstandingInput) : OutstandingResult :=
  inp.contacts.foldl (outStep inp) ⟨[], []⟩

/-- A custom field as read by `mtmGetCF` (api name / id, label, and the
value alias chain). -/
structure ZMtmCF where
  api_name : Option String
  customfield_id : Option String
  label : Option String
  customfield_label : Option String
  value : Option String
  show_value : Option String
  customfield_value : Option String
deriving DecidableEq

/-- An invoice line item as read by `fetchSaleOrderStatusMTM`: quantity,
name, the sales-order-line id alias chain, and custom fields. -/
structure ZInvLine where
  quantity : Option ℚ
  name : Option String
  salesorder_item_id : Option String
  salesorder_line_item_id : Option String
  salesorderitem_id : Option String
  linked_salesorder_item_id : Option String
  item_custom_fields : List ZMtmCF
deriving DecidableEq

/-- A hydrated invoice as read by `fetchSaleOrderStatusMTM`. -/
structure ZInvDetail where
  invoice_id : String
  invoice_number : String
  date : String
  custom_fields : List ZMtmCF
  line_items : List ZInvLine
deriving DecidableEq

/-- A sales-order line item as read by `fetchSaleOrderStatusMTM`. -/
structure ZSOLine where
  line_item_id : Option String
  salesorder_item_id : Option String
  salesorderlineitem_id : Option String
  name : Option String
  quantity : Option ℚ
  item_custom_fields : List ZMtmCF
deriving DecidableEq

/-- A hydrated sales order as read by `fetchSaleOrderStatusMTM`. -/
structure ZSODetail where
  salesorder_id : String
  salesorder_number : String
  date : String
  customer_id : String
  customer_name : String
  line_items : List ZSOLine
deriving DecidableEq

/-- A dispatch event (`SOStatusEvent` in `zoho.ts`). -/
structure SOStatusEvent where
  invoice_id : String
  invoice_number : String
  date : String
  qty : ℚ
  lrNo : Option String
  lrDate : Option String
  transport : Option String
deriving DecidableEq

/-- A sales-order line enriched with dispatch data (`SOStatusLine`). -/
structure SOStatusLine where
  salesorder_item_id : String
  item : String
  quantity : ℚ
  dispQty : ℚ
  events : List SOStatusEvent
deriving DecidableEq

/-- A sales order enriched with dispatch data (`SOStatusSO`). -/
structure SOStatusSO where
  salesorder_id : String
  salesorder_number : String
  date : String
  customer_id : String
  customer_name : String
  lines : List SOStatusLine
deriving DecidableEq

/-- The helper `mtmGetCF` of `zoho.ts` on a custom-field list: first
field whose lowercased api name (or id) or label matches one of the
wanted keys; result is `value ?? show_value ?? customfield_value`. -/
def mtmGetCF (arr : List ZMtmCF) (keys : List String) : Option String :=
  let want := keys.map String.toLower
  match arr.find? (fun cf =>
      want.contains (((cf.api_name.orElse fun _ => cf.customfield_id).getD "").toLower) ||
      want.contains (((cf.label.orElse fun _ => cf.customfield_label).getD "").toLower)) with
  | some cf => (cf.value.orElse fun _ => cf.show_value).orElse fun _ => cf.customfield_value
  | none => none

/-- The sales-order-line id declared by an invoice line:
`li.salesorder_item_id || li.salesorder_line_item_id || li.salesorderitem_id
|| li.linked_salesorder_item_id`, with the falsy skip
(`if (!soItemId) continue`) folded in as `none`. -/
def soKeyOf (li : ZInvLine) : Option String :=
  match jsOrSO li.salesorder_item_id (jsOrSO li.salesorder_line_item_id
      (jsOrSO li.salesorderitem_id li.linked_salesorder_item_id)) with
  | some s => if s = "" then none else some s
  | none => none

/-- Model of `x || undefined`: a falsy string collapses to absent. -/
def jsUndef (a : Option String) : Option String :=
  match a with
  | some s => if s = "" then none else some s
  | none => none

/-- The dispatch event built from one invoice line
(`lrNo || undefined` turns a blank custom field into an absent one). -/
def mkEvent (inv : ZInvDetail) (li : ZInvLine) : SOStatusEvent :=
  { invoice_id := inv.invoice_id
    invoice_number := inv.invoice_number
    date := inv.date
    qty := safeNum li.quantity
    lrNo := jsUndef (mtmGetCF inv.custom_fields ["cf_lr_no", "LR No"])
    lrDate := jsUndef (mtmGetCF inv.custom_fields ["cf_lr_date", "LR Date"])
    transport := jsUndef (mtmGetCF inv.custom_fields
      ["cf_transport_name", "Transport Name", "Transport"]) }

/-- All (invoice, line item) pairs in fetch order — the iteration space
of the nested event-collection loops. -/
def invLinePairs (invFull : List ZInvDetail) : List (ZInvDetail × ZInvLine) :=
  invFull.flatMap (fun inv => inv.line_items.map (fun li => (inv, li)))

/-- Push an event onto the per-key list of the `eventsBySOItem` map
(`const arr = map.get(k) || []; arr.push(ev); map.set(k, arr)`). -/
def evPush (m : List (String × List SOStatusEvent)) (k : String)
    (e : SOStatusEvent) : List (String × List SOStatusEvent) :=
  recordSet m k ((recordGet m k).getD [] ++ [e])

/-- One step of the event-collection loop: skip a line item with no
(truthy) sales-order-line id, else push its event under that key. -/
def evStep (m : List (String × List SOStatusEvent))
    (p : ZInvDetail × ZInvLine) : List (String × List SOStatusEvent) :=
  match soKeyOf p.2 with
  | none => m
  | some k => evPush m k (mkEvent p.1 p.2)

/-- The `eventsBySOItem` map of `fetchSaleOrderStatusMTM`, built by the
nested loops over hydrated invoices and their line items. -/
def buildEvents (invFull : List ZInvDetail) :
    List (String × List SOStatusEvent) :=
  (invLinePairs invFull).foldl evStep []

/-- The key under which a sales-order line looks up its events:
`String(li.line_item_id || li.salesorder_item_id || li.salesorderlineitem_id)`;
JavaScript stringification of a missing id yields `"undefined"`. -/
def soLineKeyOf (li : ZSOLine) : String :=
  match jsOrSO li.line_item_id (jsOrSO li.salesorder_item_id
      li.salesorderlineitem_id) with
  | some s => s
  | none => "undefined"

/-- Comparator of the event sort:
`(a.date || "").localeCompare(b.date || "") <= 0`. -/
def evLe (a b : SOStatusEvent) : Bool := lcLe (strOr a.date "") (strOr b.date "")

/-- The enriched line built for one sales-order line item. -/
def mkStatusLine (evMap : List (String × List SOStatusEvent))
    (li : ZSOLine) : SOStatusLine :=
  let itemName := strOr (strOr (strOr
    ((mtmGetCF li.item_custom_fields ["cf_item_name"]).getD "")
    ((mtmGetCF li.item_custom_fields ["cf_itemname"]).getD ""))
    ((mtmGetCF li.item_custom_fields ["Item Name"]).getD ""))
    (li.name.getD "")
  let evs := (recordGet evMap (soLineKeyOf li)).getD []
  let dispQty := evs.foldl (fun s e => s + jsNumOr e.qty 0) 0
  { salesorder_item_id := soLineKeyOf li
    item := itemName
    quantity := jsOrQ li.quantity 0
    dispQty := jsNumOr dispQty 0
    events := evs.mergeSort evLe }

/-- The per-sales-order model built in step 4 of `fetchSaleOrderStatusMTM`. -/
def mkStatusSO (evMap : List (String × List SOStatusEvent))
    (so : ZSODetail) : SOStatusSO :=
  { salesorder_id := so.salesorder_id
    salesorder_number := so.salesorder_number
    date := so.date
    customer_id := so.customer_id
    customer_name := so.customer_name
    lines := so.line_items.map (mkStatusLine evMap) }

/-- The pure linkage core of `fetchSaleOrderStatusMTM`: build the event
map from the hydrated invoices, then enrich every sales order. -/
def saleOrderStatusCore (invFull : List ZInvDetail)
    (soFull : List ZSODetail) : List SOStatusSO :=
  soFull.map (mkStatusSO (buildEvents invFull))

/-- The retry budget `ZB_MAX_RETRIES` of `zoho.ts`. -/
def ZB_MAX_RETRIES : Nat := 6

/-- An HTTP response as observed by `zFetchJSON`: status, the
`Retry-After` header already coerced by `Number(...) || 0`, the response
body, and the parsed JSON payload (opaque here). -/
structure ZResp where
  status : Nat
  retryAfter : ℚ
  body : String
  payload : String
deriving DecidableEq

/-- The `Response.ok` predicate: status in the range 200-299. -/
def respOk (s : Nat) : Bool := decide (200 ≤ s ∧ s ≤ 299)

/-- The statuses `zFetchJSON` retries on: 429, 502, 503. -/
def zRetryable (s : Nat) : Bool := s == 429 || s == 502 || s == 503

/-- The errors `zFetchJSON` can raise. -/
inductive ZError where
  | http (label : String) (status : Nat) (bodyTrunc : String)
  | tooManyRetries (label : String)
deriving DecidableEq

/-- The message carried by the corresponding `new Error(...)`. -/
def ZError.message : ZError → String
  | .http l s b => l ++ " " ++ toString s ++ " - " ++ b
  | .tooManyRetries l => l ++ " - too many retries"

/-- The wait computed for a retryable status:
`retryAfter > 0 ? retryAfter * 1000 : Math.min(10000, 1000 * Math.pow(1.6, attempt + 1))`. -/
def backoffWait (retryAfter : ℚ) (attempt : Nat) : ℚ :=
  if 0 < retryAfter then retryAfter * 1000
  else min 10000 (1000 * (8 / 5) ^ (attempt + 1))

/-- The retry loop of `zFetchJSON`, with the bounded `for` loop
expressed by fuel (the loop body runs for `attempt <= ZB_MAX_RETRIES`);
`responses n` is the response the network returns to the n-th fetch.
Returns the outcome together with the list of waits slept. -/
def zFetchGo (label : String) (responses : Nat → ZResp) :
    Nat → Nat → Except ZError String × List ℚ
  | 0, _ => (.error (.tooManyRetries label), [])
  | fuel + 1, attempt =>
    let r := responses attempt
    if respOk r.status then (.ok r.payload, [])
    else if zRetryable r.status then
      let rest := zFetchGo label responses fuel (attempt + 1)
      (rest.1, backoffWait r.retryAfter attempt :: rest.2)
    else (.error (.http label r.status (r.body.take 140)), [])

/-- The shared retry helper `zFetchJSON` of `zoho.ts`. -/
def zFetchJSON (label : String) (responses : Nat → ZResp) :
    Except ZError String × List ℚ :=
  zFetchGo label responses (ZB_MAX_RETRIES + 1) 0

/-- One page served to the `paged` helper: HTTP status, the first
array-valued key of the JSON (empty when none), and
`page_context?.has_more_page`. -/
structure PageResp (α : Type) where
  status : Nat
  items : List α
  has_more_page : Bool

/-- The paginated fetch helper `paged` of `fetchOutstandingForOrg`:
status 404 throws the bare string `"404"`, any other non-ok status
throws the base url with the status; pages accumulate while
`has_more_page`.  The input list holds the successive pages the server
returns; running out of provided pages models the fetch itself
failing. -/
def paged {α : Type} (baseUrl : String) : List (PageResp α) → Except String (List α)
  | [] => .error (baseUrl ++ " : no response")
  | p :: rest =>
    if p.status == 404 then .error "404"
    else if ¬ respOk p.status then .error (baseUrl ++ " " ++ toString p.status)
    else if p.has_more_page then (paged baseUrl rest).map (fun out => p.items ++ out)
    else .ok p.items

/-- The Zoho Books base url of `zoho.ts`. -/
def BOOKS_BASE : String := "https://www.zohoapis.in/books/v3"

/-- The page streams the seven paginated fetches of
`fetchOutstandingForOrg` consume (open invoices are fetched once per
status in `OPEN_STATUSES = ["draft", "unpaid"]`). -/
structure OutstandingPages where
  contacts : List (PageResp ZContact)
  invoicesDraft : List (PageResp ZInvoice)
  invoicesUnpaid : List (PageResp ZInvoice)
  creditnotes : List (PageResp ZCreditNote)
  payments : List (PageResp ZPayment)
  advancepayments : List (PageResp ZAdvance)
  retainerinvoices : List (PageResp ZAdvance)

/-- The fetch phase of `fetchOutstandingForOrg`: the five mandatory
paginated fetches propagate their error; the advances fetch falls back
to retainer invoices, and failing that to the empty list. -/
def fetchPhase (pg : OutstandingPages) :
    Except String (List ZContact × List ZInvoice × List ZCreditNote ×
      List ZPayment × List ZAdvance) := do
  let contacts ← paged (BOOKS_BASE ++ "/contacts") pg.contacts
  let invDraft ← paged (BOOKS_BASE ++ "/invoices") pg.invoicesDraft
  let invUnpaid ← paged (BOOKS_BASE ++ "/invoices") pg.invoicesUnpaid
  let creditnotes ← paged (BOOKS_BASE ++ "/creditnotes") pg.creditnotes
  let payments ← paged (BOOKS_BASE ++ "/customerpayments") pg.payments
  let advances :=
    match paged (BOOKS_BASE ++ "/customeradvancepayments") pg.advancepayments with
    | .ok a => a
    | .error _ =>
      match paged (BOOKS_BASE ++ "/retainerinvoices") pg.retainerinvoices with
      | .ok a => a
      | .error _ => []
  return (contacts, invDraft ++ invUnpaid, creditnotes, payments, advances)

theorem round2_cents (k : ℤ) : round2 ((k : ℚ) / 100) = (k : ℚ) / 100 := by
  unfold round2 epsilonQ
  rw [round_eq]
  have h : ((k : ℚ) / 100 + 1 / 2 ^ 52) * 100 + 1 / 2 =
      (k : ℚ) + (100 / 2 ^ 52 + 1 / 2) := by ring
  rw [h, Int.floor_int_add]
  have h0 : ⌊(100 / 2 ^ 52 + 1 / 2 : ℚ)⌋ = 0 := by
    rw [Int.floor_eq_iff]
    norm_num
  rw [h0]
  push_cast
  ring

theorem round2_int (k : ℤ) : round2 (k : ℚ) = (k : ℚ) := by
  have h := round2_cents (k * 100)
  have h1 : ((k * 100 : ℤ) : ℚ) / 100 = (k : ℚ) := by push_cast; ring
  rw [h1] at h
  exact h

theorem ageOf_some (env : DateEnv) (inv : ZInvoice) (t : Int)
    (ht : parseISO env inv.date = some t) :
    ageOf env inv = max 0 (daysBetween env.today t) := by
  unfold ageOf
  rw [ht]

theorem ageOf_none (env : DateEnv) (inv : ZInvoice)
    (ht : parseISO env inv.date = none) : ageOf env inv = 0 := by
  unfold ageOf
  rw [ht]

theorem applyInvoice_parsed (env : DateEnv) (b : Nat → ℚ) (inv : ZInvoice)
    (t : Int) (ht : parseISO env inv.date = some t)
    (hbal : 0 < rawBalanceOf inv) :
    applyInvoice env b inv = fun i =>
      if i = bucketIndex (ageOf env inv) then b i + rawBalanceOf inv
      else b i := by
  unfold applyInvoice
  rw [ht, ageOf_some env inv t ht]
  simp only [Option.isSome_some, and_true]
  rw [if_pos hbal]

theorem applyInvoice_unparsed (env : DateEnv) (b : Nat → ℚ) (inv : ZInvoice)
    (ht : parseISO env inv.date = none) (hbal : 0 < rawBalanceOf inv) :
    applyInvoice env b inv = fun i =>
      if i = bucketIndex 0 then b i + rawBalanceOf inv else b i := by
  unfold applyInvoice
  rw [ht]
  simp only [Option.isSome_none, and_false, if_false, Bool.false_eq_true]
  rw [if_pos hbal]

theorem applyInvoice_nonpos (env : DateEnv) (b : Nat → ℚ) (inv : ZInvoice)
    (hbal : ¬ 0 < rawBalanceOf inv) : applyInvoice env b inv = b := by
  unfold applyInvoice
  have h1 : ¬ (0 < rawBalanceOf inv ∧ (parseISO env inv.date).isSome) := by
    intro h
    exact hbal h.1
  rw [if_neg h1, if_neg hbal]

/-- C1: for an invoice of non-negative age `d` whole days, `d` lies in
the inclusive range of exactly one of the eleven aging buckets (whose
ranges, as the spec lists them, are pairwise disjoint and cover all
non-negative day counts), the computed bucket index is in range, every
computed age is a non-negative integer, and the bucket loop adds the
invoice's full outstanding balance to exactly that bucket. -/
theorem c1_aging_bucket_partition (d : Int) (hd : 0 ≤ d) :
    (specBucketRange (bucketIndex d) d ∧
      ∀ j, specBucketRange j d → j = bucketIndex d) ∧
    bucketIndex d < BUCKETS.length ∧
    (∀ (env : DateEnv) (inv : ZInvoice), 0 ≤ ageOf env inv) ∧
    (∀ (env : DateEnv) (b : Nat → ℚ) (inv : ZInvoice),
      0 < rawBalanceOf inv → (parseISO env inv.date).isSome →
      ageOf env inv = d →
      applyInvoice env b inv (bucketIndex d) =
        b (bucketIndex d) + rawBalanceOf inv ∧
      ∀ j, j ≠ bucketIndex d → applyInvoice env b inv j = b j) := by
  refine ⟨⟨bucketIndex_spec d hd,
    fun j hj => specBucketRange_unique d j (bucketIndex d) hj
      (bucketIndex_spec d hd)⟩, bucketIndex_lt_length d, ?_, ?_⟩
  · intro env inv
    cases ht : parseISO env inv.date with
    | none => rw [ageOf_none env inv ht]
    | some t => rw [ageOf_some env inv t ht]; omega
  · intro env b inv hbal hsome hage
    obtain ⟨t, ht⟩ := Option.isSome_iff_exists.mp hsome
    rw [applyInvoice_parsed env b inv t ht hbal, hage]
    constructor
    · simp
    · intro j hj
      simp [hj]

/-- Date environment for concrete examples: today is epoch day 1000,
and the only parseable date string is "D980" (epoch day 980). -/
def c1Env : DateEnv :=
  ⟨86400000 * 1000, fun s => if s = "D980" then some (86400000 * 980) else none⟩

/-- A concrete invoice dated 20 days before today with balance 5. -/
def c1Inv : ZInvoice :=
  { invoice_id := none, invoice_number := none, customer_id := none
    contact_id := none, date := some "D980", total := none
    total_amount := none, amount := none, balance := some 5
    balance_amount := none, outstanding_balance := none }

/-- Witness for C1 at a concrete age of 20 days. -/
theorem c1_witness :
    (0 : Int) ≤ 20 ∧
    ((specBucketRange (bucketIndex 20) 20 ∧
      ∀ j, specBucketRange j 20 → j = bucketIndex 20) ∧
    bucketIndex 20 < BUCKETS.length ∧
    (∀ (env : DateEnv) (inv : ZInvoice), 0 ≤ ageOf env inv) ∧
    (∀ (env : DateEnv) (b : Nat → ℚ) (inv : ZInvoice),
      0 < rawBalanceOf inv → (parseISO env inv.date).isSome →
      ageOf env inv = 20 →
      applyInvoice env b inv (bucketIndex 20) =
        b (bucketIndex 20) + rawBalanceOf inv ∧
      ∀ j, j ≠ bucketIndex 20 → applyInvoice env b inv j = b j)) :=
  ⟨by decide, c1_aging_bucket_partition 20 (by decide)⟩

/-- C7: an open invoice with positive balance but no parseable date is
assigned to the first bucket ("0-15", treated as 0 days old) rather than
dropped; a parseable date in the future (negative day difference) has
its age clamped to 0; and the day difference itself is the floor of the
millisecond difference divided by one day. -/
theorem c7_unparseable_and_future_dates :
    (∀ (env : DateEnv) (b : Nat → ℚ) (inv : ZInvoice),
      parseISO env inv.date = none → 0 < rawBalanceOf inv →
      bucketKeys[bucketIndex 0]? = some "0-15" ∧
      applyInvoice env b inv (bucketIndex 0) =
        b (bucketIndex 0) + rawBalanceOf inv ∧
      ∀ j, j ≠ bucketIndex 0 → applyInvoice env b inv j = b j) ∧
    (∀ (env : DateEnv) (inv : ZInvoice) (t : Int),
      parseISO env inv.date = some t → daysBetween env.today t < 0 →
      ageOf env inv = 0) ∧
    (∀ a b : Int, daysBetween a b = ⌊((a : ℚ) - (b : ℚ)) / (24 * 3600 * 1000)⌋) := by
  refine ⟨?_, ?_, ?_⟩
  · intro env b inv hnone hbal
    rw [applyInvoice_unparsed env b inv hnone hbal]
    refine ⟨by decide, by simp, ?_⟩
    intro j hj
    simp [hj]
  · intro env inv t ht hneg
    rw [ageOf_some env inv t ht]
    omega
  · intro a b
    unfold daysBetween
    rw [Int.fdiv_eq_ediv _ (by norm_num)]
    have h1 : ((a : ℚ) - (b : ℚ)) / (24 * 3600 * 1000) =
        ((a - b : ℤ) : ℚ) / ((86400000 : ℕ) : ℚ) := by push_cast; ring
    rw [h1, Rat.floor_intCast_div_natCast]
    norm_num

theorem recordGet_mem {β : Type} {m : List (String × β)} {k : String} {v : β}
    (h : recordGet m k = some v) : (k, v) ∈ m := by
  unfold recordGet at h
  obtain ⟨p, hp, hv⟩ := Option.map_eq_some'.mp h
  have hk : p.1 = k := by
    have := List.find?_some hp
    simpa using this
  have hm := List.mem_of_find?_eq_some hp
  have hpv : p = (k, v) := by
    cases p
    simp_all
  rw [hpv] at hm
  exact hm

theorem mem_recordSet {β : Type} {k : String} {v : β} {q : String × β} :
    ∀ {m : List (String × β)}, q ∈ recordSet m k v → q ∈ m ∨ q = (k, v) := by
  intro m
  induction m with
  | nil =>
    intro h
    simp only [recordSet] at h
    right
    simpa using h
  | cons a as ih =>
    intro h
    simp only [recordSet] at h
    split at h
    · rcases List.mem_cons.mp h with rfl | h'
      · exact Or.inr rfl
      · exact Or.inl (List.mem_cons_of_mem a h')
    · rcases List.mem_cons.mp h with rfl | h'
      · exact Or.inl (List.mem_cons_self _ _)
      · rcases ih h' with h'' | h''
        · exact Or.inl (List.mem_cons_of_mem a h'')
        · exact Or.inr h''

theorem recordGet_recordSet_self {β : Type} (k : String) (v : β) :
    ∀ (m : List (String × β)), recordGet (recordSet m k v) k = some v := by
  intro m
  induction m with
  | nil => simp [recordSet, recordGet, List.find?]
  | cons a as ih =>
    by_cases hak : a.1 = k
    · simp [recordSet, recordGet, hak, List.find?]
    · have hakb : ¬ ((a.1 == k) = true) := by simpa using hak
      simp only [recordSet, if_neg hakb]
      unfold recordGet at ih ⊢
      simpa [List.find?, hakb] using ih

theorem recordGet_recordSet_ne {β : Type} (k k' : String) (v : β)
    (h : k' ≠ k) : ∀ (m : List (String × β)),
    recordGet (recordSet m k v) k' = recordGet m k' := by
  intro m
  induction m with
  | nil =>
    have : ¬ ((k == k') = true) := by simpa using fun he => h he.symm
    simp [recordSet, recordGet, List.find?, this]
  | cons a as ih =>
    by_cases hak : a.1 = k
    · have : ¬ ((k == k') = true) := by simpa using fun he => h he.symm
      have hak' : ¬ ((a.1 == k') = true) := by
        rw [hak]
        exact this
      simp [recordSet, recordGet, hak, List.find?, this, hak']
    · have hakb : ¬ ((a.1 == k) = true) := by simpa using hak
      simp only [recordSet, if_neg hakb]
      by_cases hak2 : a.1 = k'
      · simp [recordGet, List.find?, hak2]
      · have hak2b : ¬ ((a.1 == k') = true) := by simpa using hak2
        unfold recordGet at ih ⊢
        simpa [List.find?, hak2b] using ih

theorem charListLe_total : ∀ a b : List Char, charListLe a b || charListLe b a := by
  intro a
  induction a with
  | nil => intro b; simp [charListLe]
  | cons x xs ih =>
    intro b
    cases b with
    | nil => simp [charListLe]
    | cons y ys =>
      simp only [charListLe]
      rcases lt_trichotomy x y with h | h | h
      · rw [if_pos h]
        simp
      · subst h
        have hx : (x < x) = False := by simp
        simp only [hx, if_false]
        exact ih ys
      · rw [if_neg (not_lt.mpr (le_of_lt h)), if_pos h, if_pos h]
        simp

theorem charListLe_trans :
    ∀ a b c : List Char, charListLe a b → charListLe b c → charListLe a c := by
  intro a
  induction a with
  | nil => intro b c _ _; simp [charListLe]
  | cons x xs ih =>
    intro b c hab hbc
    cases b with
    | nil => simp [charListLe] at hab
    | cons y ys =>
      cases c with
      | nil => simp [charListLe] at hbc
      | cons z zs =>
        simp only [charListLe] at hab hbc ⊢
        rcases lt_trichotomy x y with hxy | hxy | hxy
        · rcases lt_trichotomy y z with hyz | hyz | hyz
          · rw [if_pos (lt_trans hxy hyz)]
          · subst hyz
            rw [if_pos hxy]
          · rw [if_neg (not_lt.mpr (le_of_lt hyz)), if_pos hyz] at hbc
            exact absurd hbc (by simp)
        · subst hxy
          rcases lt_trichotomy x z with hxz | hxz | hxz
          · rw [if_pos hxz]
          · subst hxz
            rw [if_neg (lt_irrefl x), if_neg (lt_irrefl x)] at hab hbc ⊢
            exact ih ys zs hab hbc
          · rw [if_neg (not_lt.mpr (le_of_lt hxz)), if_pos hxz] at hbc
            exact absurd hbc (by simp)
        · rw [if_neg (not_lt.mpr (le_of_lt hxy)), if_pos hxy] at hab
          exact absurd hab (by simp)

theorem lcLe_total (a b : String) : lcLe a b || lcLe b a :=
  charListLe_total a.data b.data

theorem lcLe_trans {a b c : String} (h1 : lcLe a b) (h2 : lcLe b c) :
    lcLe a c :=
  charListLe_trans a.data b.data c.data h1 h2

theorem lcLe_refl (a : String) : lcLe a a := by
  have h := lcLe_total a a
  simpa using h

theorem invoiceRowLe_trans : ∀ a b c : OutstandingInvoiceRow,
    invoiceRowLe a b → invoiceRowLe b c → invoiceRowLe a c :=
  fun _ _ _ h1 h2 => lcLe_trans h1 h2

theorem invoiceRowLe_total : ∀ a b : OutstandingInvoiceRow,
    invoiceRowLe a b || invoiceRowLe b a :=
  fun a b => lcLe_total a.invoiceDate b.invoiceDate

theorem summary_mem (inp : OutstandingInput) :
    ∀ (cs : List ZContact) (acc : OutstandingResult)
      (q : String × OutstandingCustomerRow),
      q ∈ (cs.foldl (outStep inp) acc).summary →
      q ∈ acc.summary ∨
        ∃ c ∈ cs, c.contact_name = q.1 ∧ contactRow inp c = some q.2 := by
  intro cs
  induction cs with
  | nil =>
    intro acc q h
    exact Or.inl h
  | cons c cs ih =>
    intro acc q h
    rw [List.foldl_cons] at h
    rcases ih (outStep inp acc c) q h with h' | h'
    · unfold outStep at h'
      cases hc : contactRow inp c with
      | none =>
        rw [hc] at h'
        exact Or.inl h'
      | some row =>
        rw [hc] at h'
        simp only at h'
        rcases mem_recordSet h' with h'' | h''
        · exact Or.inl h''
        · right
          refine ⟨c, List.mem_cons_self c cs, ?_, ?_⟩
          · rw [h'']
          · rw [h'', hc]
    · right
      obtain ⟨c', hc', hn, hr⟩ := h'
      exact ⟨c', List.mem_cons_of_mem c hc', hn, hr⟩

theorem summary_absent (inp : OutstandingInput) :
    ∀ (cs : List ZContact) (acc : OutstandingResult) (n : String),
      (∀ c ∈ cs, c.contact_name = n → contactRow inp c = none) →
      recordGet acc.summary n = none →
      recordGet (cs.foldl (outStep inp) acc).summary n = none := by
  intro cs
  induction cs with
  | nil =>
    intro acc n _ h0
    exact h0
  | cons c cs ih =>
    intro acc n hall h0
    rw [List.foldl_cons]
    apply ih _ n (fun c' hc' => hall c' (List.mem_cons_of_mem c hc'))
    unfold outStep
    cases hc : contactRow inp c with
    | none => exact h0
    | some row =>
      simp only
      have hne : n ≠ c.contact_name := by
        intro he
        have h1 := hall c (List.mem_cons_self c cs) he.symm
        rw [h1] at hc
        cases hc
      rw [recordGet_recordSet_ne c.contact_name n row hne]
      exact h0

theorem invoices_mem (inp : OutstandingInput) :
    ∀ (cs : List ZContact) (acc : OutstandingResult)
      (q : String × List OutstandingInvoiceRow),
      q ∈ (cs.foldl (outStep inp) acc).invoices →
      q ∈ acc.invoices ∨
        ∃ c ∈ cs, c.contact_name = q.1 ∧
          q.2 = unpaidInvoicesOf inp.env (invByC inp.openInvoices c.contact_id) := by
  intro cs
  induction cs with
  | nil =>
    intro acc q h
    exact Or.inl h
  | cons c cs ih =>
    intro acc q h
    rw [List.foldl_cons] at h
    rcases ih (outStep inp acc c) q h with h' | h'
    · have hstep : (outStep inp acc c).invoices =
          recordSet acc.invoices c.contact_name
            (unpaidInvoicesOf inp.env (invByC inp.openInvoices c.contact_id)) := by
        unfold outStep
        cases contactRow inp c <;> simp only
      rw [hstep] at h'
      rcases mem_recordSet h' with h'' | h''
      · exact Or.inl h''
      · right
        refine ⟨c, List.mem_cons_self c cs, ?_, ?_⟩
        · rw [h'']
        · rw [h'']
    · right
      obtain ⟨c', hc', hn, hr⟩ := h'
      exact ⟨c', List.mem_cons_of_mem c hc', hn, hr⟩

theorem invoices_key_mono (inp : OutstandingInput) :
    ∀ (cs : List ZContact) (acc : OutstandingResult) (n : String),
      (∃ l, recordGet acc.invoices n = some l) →
      ∃ l, recordGet (cs.foldl (outStep inp) acc).invoices n = some l := by
  intro cs
  induction cs with
  | nil =>
    intro acc n h
    exact h
  | cons c cs ih =>
    intro acc n h
    rw [List.foldl_cons]
    apply ih
    have hstep : (outStep inp acc c).invoices =
        recordSet acc.invoices c.contact_name
          (unpaidInvoicesOf inp.env (invByC inp.openInvoices c.contact_id)) := by
      unfold outStep
      cases contactRow inp c <;> simp only
    rw [hstep]
    by_cases hn : n = c.contact_name
    · subst hn
      exact ⟨_, recordGet_recordSet_self c.contact_name _ acc.invoices⟩
    · obtain ⟨l, hl⟩ := h
      exact ⟨l, by rw [recordGet_recordSet_ne c.contact_name n _ hn]; exact hl⟩

theorem invoices_key_exists (inp : OutstandingInput) :
    ∀ (cs : List ZContact) (acc : OutstandingResult) (c : ZContact), c ∈ cs →
      ∃ l, recordGet (cs.foldl (outStep inp) acc).invoices c.contact_name = some l := by
  intro cs
  induction cs with
  | nil =>
    intro acc c h
    cases h
  | cons c0 cs ih =>
    intro acc c h
    rw [List.foldl_cons]
    rcases List.mem_cons.mp h with rfl | h'
    · apply invoices_key_mono
      have hstep : (outStep inp acc c).invoices =
          recordSet acc.invoices c.contact_name
            (unpaidInvoicesOf inp.env (invByC inp.openInvoices c.contact_id)) := by
        unfold outStep
        cases contactRow inp c <;> simp only
      rw [hstep]
      exact ⟨_, recordGet_recordSet_self c.contact_name _ acc.invoices⟩
    · exact ih _ c h'

theorem totalOutOf_eq (inp : OutstandingInput) (c : ZContact) :
    totalOutOf inp c =
      contactBuckets inp c 0 + contactBuckets inp c 1 + contactBuckets inp c 2 +
      contactBuckets inp c 3 + contactBuckets inp c 4 + contactBuckets inp c 5 +
      contactBuckets inp c 6 + contactBuckets inp c 7 + contactBuckets inp c 8 +
      contactBuckets inp c 9 + contactBuckets inp c 10 := by
  have hr : List.range BUCKETS.length = [0, 1, 2, 3, 4, 5, 6, 7, 8, 9, 10] := by
    decide
  unfold totalOutOf
  rw [hr]
  simp only [List.map_cons, List.map_nil, List.foldl_cons, List.foldl_nil]
  ring

/-- The raw pruning sum of the contact loop:
`totalOut + cnSum + totalUnused + p0_15 + p16_90`. -/
def contactMonetarySum (inp : OutstandingInput) (c : ZContact) : ℚ :=
  totalOutOf inp c + cnByC inp.creditnotes c.contact_id +
    (unusedPaySum (payByC inp.payments c.contact_id) +
      unusedAdvSum (advByC inp.advances c.contact_id)) +
    (payWindows inp.env (payByC inp.payments c.contact_id)).1 +
    (payWindows inp.env (payByC inp.payments c.contact_id)).2

theorem contactRow_none_iff (inp : OutstandingInput) (c : ZContact) :
    contactRow inp c = none ↔ contactMonetarySum inp c = 0 := by
  simp only [contactRow]
  split_ifs with h <;> simp [contactMonetarySum, h]

/-- C4: a contact all of whose raw monetary quantities (the eleven
buckets, credit notes, unused payments and advances, and both
payment-recency windows) are zero contributes no summary row under its
name, and every row present comes from a contact whose raw pruning sum
is nonzero. -/
theorem c4_all_zero_suppressed (inp : OutstandingInput) (n : String) :
    ((∀ c ∈ inp.contacts, c.contact_name = n →
        (∀ i < BUCKETS.length, contactBuckets inp c i = 0) ∧
        cnByC inp.creditnotes c.contact_id = 0 ∧
        unusedPaySum (payByC inp.payments c.contact_id) = 0 ∧
        unusedAdvSum (advByC inp.advances c.contact_id) = 0 ∧
        (payWindows inp.env (payByC inp.payments c.contact_id)).1 = 0 ∧
        (payWindows inp.env (payByC inp.payments c.contact_id)).2 = 0) →
      recordGet (fetchOutstandingCore inp).summary n = none) ∧
    (∀ row, recordGet (fetchOutstandingCore inp).summary n = some row →
      ∃ c ∈ inp.contacts, c.contact_name = n ∧
        contactMonetarySum inp c ≠ 0) := by
  constructor
  · intro hall
    apply summary_absent inp inp.contacts ⟨[], []⟩ n _ rfl
    intro c hc hn
    obtain ⟨hb, hcn, hup, hua, hp1, hp2⟩ := hall c hc hn
    rw [contactRow_none_iff]
    unfold contactMonetarySum
    rw [totalOutOf_eq]
    rw [hb 0 (by decide), hb 1 (by decide), hb 2 (by decide), hb 3 (by decide),
      hb 4 (by decide), hb 5 (by decide), hb 6 (by decide), hb 7 (by decide),
      hb 8 (by decide), hb 9 (by decide), hb 10 (by decide),
      hcn, hup, hua, hp1, hp2]
    norm_num
  · intro row hrow
    have hmem := recordGet_mem hrow
    rcases summary_mem inp inp.contacts ⟨[], []⟩ (n, row) hmem with h | h
    · cases h
    · obtain ⟨c, hc, hn, hr⟩ := h
      refine ⟨c, hc, hn, ?_⟩
      intro h0
      rw [← contactRow_none_iff] at h0
      rw [h0] at hr
      cases hr

/-- A contact with no monetary activity at all. -/
def cB : ZContact :=
  { contact_id := "C2", contact_name := "Zero", billing_city := none
    shipping_city := none, custom_fields := [] }

/-- Input with the single all-zero contact `cB` and no documents. -/
def inpB : OutstandingInput :=
  { env := c1Env, org := OrgKey.MURLI, contacts := [cB], openInvoices := []
    creditnotes := [], payments := [], advances := [] }

/-- Witness for C4: the all-zero contact is absent from the summary. -/
theorem c4_witness : recordGet (fetchOutstandingCore inpB).summary "Zero" = none :=
  (c4_all_zero_suppressed inpB "Zero").1
    (by
      intro c hc hn
      have hcB : c = cB := by simpa [inpB] using hc
      subst hcB
      exact ⟨fun i _ => rfl, rfl, rfl, rfl, rfl, rfl⟩)

/-- C10: the invoices mapping has an entry for every fetched contact,
keyed by contact name (including contacts whose summary row is pruned),
and every stored list holds only rows with positive rounded balance,
sorted ascending by invoice date string. -/
theorem c10_invoices_entry_per_contact (inp : OutstandingInput) :
    (∀ c ∈ inp.contacts, ∃ l,
      recordGet (fetchOutstandingCore inp).invoices c.contact_name = some l) ∧
    (∀ n l, recordGet (fetchOutstandingCore inp).invoices n = some l →
      (∀ r ∈ l, 0 < r.balance) ∧
      l.Pairwise (fun a b => invoiceRowLe a b = true)) := by
  constructor
  · intro c hc
    exact invoices_key_exists inp inp.contacts ⟨[], []⟩ c hc
  · intro n l hl
    have hmem := recordGet_mem hl
    rcases invoices_mem inp inp.contacts ⟨[], []⟩ (n, l) hmem with h | h
    · cases h
    · obtain ⟨c, hc, hn, hval⟩ := h
      simp only at hval
      subst hval
      constructor
      · intro r hr
        unfold unpaidInvoicesOf at hr
        rw [List.mem_mergeSort] at hr
        have hp := List.of_mem_filter hr
        exact of_decide_eq_true hp
      · exact List.sorted_mergeSort invoiceRowLe_trans invoiceRowLe_total _

/-- A contact with one open invoice. -/
def cA : ZContact :=
  { contact_id := "C1", contact_name := "Acme", billing_city := none
    shipping_city := none, custom_fields := [] }

/-- An open invoice of contact `cA`: dated 20 days before today,
balance 1000. -/
def invA : ZInvoice :=
  { invoice_id := some "I1", invoice_number := some "INV-1"
    customer_id := some "C1", contact_id := none, date := some "D980"
    total := some 1000, total_amount := none, amount := none
    balance := some 1000, balance_amount := none, outstanding_balance := none }

/-- Input with one contact and one open invoice aged 20 days. -/
def inpA : OutstandingInput :=
  { env := c1Env, org := OrgKey.MURLI, contacts := [cA], openInvoices := [invA]
    creditnotes := [], payments := [], advances := [] }

/-- Witness for C10 on the concrete input `inpA`. -/
theorem c10_witness :
    (∃ l, recordGet (fetchOutstandingCore inpA).invoices "Acme" = some l) ∧
    (∀ n l, recordGet (fetchOutstandingCore inpA).invoices n = some l →
      (∀ r ∈ l, 0 < r.balance) ∧
      l.Pairwise (fun a b => invoiceRowLe a b = true)) :=
  ⟨(c10_invoices_entry_per_contact inpA).1 cA (by simp [inpA]),
    (c10_invoices_entry_per_contact inpA).2⟩

theorem round2_zero : round2 0 = 0 := by
  simpa using round2_int 0

theorem round2_thousand : round2 1000 = 1000 := by
  simpa using round2_int 1000

/-- C3: every summary row satisfies
`Balance = round2(Total - CN - Payment)` computed on the raw (pre-round)
aggregates, and every monetary output field of the row is `round2` of
its raw aggregate. -/
theorem c3_balance_formula (inp : OutstandingInput) (n : String)
    (row : OutstandingCustomerRow)
    (hrow : recordGet (fetchOutstandingCore inp).summary n = some row) :
    ∃ c ∈ inp.contacts, c.contact_name = n ∧
      row.Balance = round2 (totalOutOf inp c -
        (cnByC inp.creditnotes c.contact_id +
          (unusedPaySum (payByC inp.payments c.contact_id) +
            unusedAdvSum (advByC inp.advances c.contact_id)))) ∧
      row.Total = round2 (totalOutOf inp c) ∧
      row.CN = round2 (cnByC inp.creditnotes c.contact_id) ∧
      row.Payment = round2 (unusedPaySum (payByC inp.payments c.contact_id) +
        unusedAdvSum (advByC inp.advances c.contact_id)) ∧
      row.b0_15 = round2 (contactBuckets inp c (idxOfKey "0-15")) ∧
      row.b16_30 = round2 (contactBuckets inp c (idxOfKey "16-30")) ∧
      row.b31_45 = round2 (contactBuckets inp c (idxOfKey "31-45")) ∧
      row.b46_60 = round2 (contactBuckets inp c (idxOfKey "46-60")) ∧
      row.b61_90 = round2 (contactBuckets inp c (idxOfKey "61-90")) ∧
      row.b91_120 = round2 (contactBuckets inp c (idxOfKey "91-120")) ∧
      row.b121_150 = round2 (contactBuckets inp c (idxOfKey "121-150")) ∧
      row.b151_180 = round2 (contactBuckets inp c (idxOfKey "151-180")) ∧
      row.b181_365 = round2 (contactBuckets inp c (idxOfKey "181-365")) ∧
      row.b366_730 = round2 (contactBuckets inp c (idxOfKey "366-730")) ∧
      row.bAbove_730 = round2 (contactBuckets inp c (idxOfKey "Above_730")) ∧
      row.Above_180 = round2 (contactBuckets inp c (idxOfKey "181-365") +
        contactBuckets inp c (idxOfKey "366-730") +
        contactBuckets inp c (idxOfKey "Above_730")) ∧
      row.p0_15_payments =
        round2 (payWindows inp.env (payByC inp.payments c.contact_id)).1 ∧
      row.p16_90_payments =
        round2 (payWindows inp.env (payByC inp.payments c.contact_id)).2 := by
  have hmem := recordGet_mem hrow
  rcases summary_mem inp inp.contacts ⟨[], []⟩ (n, row) hmem with h | h
  · cases h
  · obtain ⟨c, hc, hn, hr⟩ := h
    refine ⟨c, hc, hn, ?_⟩
    simp only [contactRow] at hr
    split_ifs at hr
    all_goals first
    | exact Option.noConfusion hr
    | (have heq := Option.some.inj hr
       subst heq
       exact ⟨rfl, rfl, rfl, rfl, rfl, rfl, rfl, rfl, rfl, rfl, rfl, rfl, rfl,
         rfl, rfl, rfl, rfl, rfl⟩)

theorem inpA_buckets : ∀ i, contactBuckets inpA cA i =
    if i = 1 then (0 : ℚ) + 1000 else 0 := by
  have hinv : invByC inpA.openInvoices cA.contact_id = [invA] := by decide
  have hfold : contactBuckets inpA cA = applyInvoice c1Env (fun _ => 0) invA := by
    unfold contactBuckets
    rw [hinv]
    rfl
  have hparse : parseISO c1Env invA.date = some (86400000 * 980) := by decide
  have hrawA : rawBalanceOf invA = 1000 := by decide
  have hbal : (0 : ℚ) < rawBalanceOf invA := by
    rw [hrawA]
    decide
  have h2 := applyInvoice_parsed c1Env (fun _ => 0) invA (86400000 * 980)
    hparse hbal
  have hage : ageOf c1Env invA = 20 := by decide
  have hbix : bucketIndex 20 = 1 := by decide
  intro i
  rw [hfold, h2]
  simp only [hage, hbix, hrawA]

theorem inpA_totalOut : totalOutOf inpA cA = 1000 := by
  rw [totalOutOf_eq, inpA_buckets 0, inpA_buckets 1, inpA_buckets 2,
    inpA_buckets 3, inpA_buckets 4, inpA_buckets 5, inpA_buckets 6,
    inpA_buckets 7, inpA_buckets 8, inpA_buckets 9, inpA_buckets 10]
  norm_num

/-- The summary row the aggregation produces for `inpA`. -/
def rowA : OutstandingCustomerRow :=
  { customerName := "Acme", city := "", division := none, agency := none
    b0_15 := 0, b16_30 := 1000, b31_45 := 0, b46_60 := 0, b61_90 := 0
    b91_120 := 0, b121_150 := 0, b151_180 := 0, b181_365 := 0, b366_730 := 0
    bAbove_730 := 0, Above_180 := 0, Total := 1000, CN := 0, Payment := 0
    Balance := 1000, p0_15_payments := 0, p16_90_payments := 0 }

theorem inpA_contactRow : contactRow inpA cA = some rowA := by
  have hix0 : idxOfKey "0-15" = 0 := by decide
  have hix1 : idxOfKey "16-30" = 1 := by decide
  have hix2 : idxOfKey "31-45" = 2 := by decide
  have hix3 : idxOfKey "46-60" = 3 := by decide
  have hix4 : idxOfKey "61-90" = 4 := by decide
  have hix5 : idxOfKey "91-120" = 5 := by decide
  have hix6 : idxOfKey "121-150" = 6 := by decide
  have hix7 : idxOfKey "151-180" = 7 := by decide
  have hix8 : idxOfKey "181-365" = 8 := by decide
  have hix9 : idxOfKey "366-730" = 9 := by decide
  have hix10 : idxOfKey "Above_730" = 10 := by decide
  have hcn : cnByC inpA.creditnotes cA.contact_id = 0 := rfl
  have hup : unusedPaySum (payByC inpA.payments cA.contact_id) = 0 := rfl
  have hua : unusedAdvSum (advByC inpA.advances cA.contact_id) = 0 := rfl
  have hpw1 : (payWindows inpA.env (payByC inpA.payments cA.contact_id)).1 = 0 := rfl
  have hpw2 : (payWindows inpA.env (payByC inpA.payments cA.contact_id)).2 = 0 := rfl
  simp only [contactRow, hix0, hix1, hix2, hix3, hix4, hix5, hix6, hix7, hix8,
    hix9, hix10, hcn, hup, hua, hpw1, hpw2, inpA_totalOut,
    inpA_buckets 0, inpA_buckets 1, inpA_buckets 2, inpA_buckets 3,
    inpA_buckets 4, inpA_buckets 5, inpA_buckets 6, inpA_buckets 7,
    inpA_buckets 8, inpA_buckets 9, inpA_buckets 10]
  rw [if_neg (by norm_num)]
  norm_num [rowA, round2_zero, round2_thousand, groupMode, inpA, cA, firstCity,
    jsTrim]
  exact ⟨fun h => absurd h (by decide), fun h => absurd h (by decide)⟩

theorem inpA_summary :
    recordGet (fetchOutstandingCore inpA).summary "Acme" = some rowA := by
  show recordGet ((outStep inpA ⟨[], []⟩ cA)).summary "Acme" = some rowA
  unfold outStep
  rw [inpA_contactRow]
  rfl

/-- Witness for C3 on the concrete input `inpA`. -/
theorem c3_witness : ∃ c ∈ inpA.contacts, c.contact_name = "Acme" ∧
    rowA.Balance = round2 (totalOutOf inpA c -
      (cnByC inpA.creditnotes c.contact_id +
        (unusedPaySum (payByC inpA.payments c.contact_id) +
          unusedAdvSum (advByC inpA.advances c.contact_id)))) ∧
    rowA.Total = round2 (totalOutOf inpA c) ∧
    rowA.CN = round2 (cnByC inpA.creditnotes c.contact_id) ∧
    rowA.Payment = round2 (unusedPaySum (payByC inpA.payments c.contact_id) +
      unusedAdvSum (advByC inpA.advances c.contact_id)) ∧
    rowA.b0_15 = round2 (contactBuckets inpA c (idxOfKey "0-15")) ∧
    rowA.b16_30 = round2 (contactBuckets inpA c (idxOfKey "16-30")) ∧
    rowA.b31_45 = round2 (contactBuckets inpA c (idxOfKey "31-45")) ∧
    rowA.b46_60 = round2 (contactBuckets inpA c (idxOfKey "46-60")) ∧
    rowA.b61_90 = round2 (contactBuckets inpA c (idxOfKey "61-90")) ∧
    rowA.b91_120 = round2 (contactBuckets inpA c (idxOfKey "91-120")) ∧
    rowA.b121_150 = round2 (contactBuckets inpA c (idxOfKey "121-150")) ∧
    rowA.b151_180 = round2 (contactBuckets inpA c (idxOfKey "151-180")) ∧
    rowA.b181_365 = round2 (contactBuckets inpA c (idxOfKey "181-365")) ∧
    rowA.b366_730 = round2 (contactBuckets inpA c (idxOfKey "366-730")) ∧
    rowA.bAbove_730 = round2 (contactBuckets inpA c (idxOfKey "Above_730")) ∧
    rowA.Above_180 = round2 (contactBuckets inpA c (idxOfKey "181-365") +
      contactBuckets inpA c (idxOfKey "366-730") +
      contactBuckets inpA c (idxOfKey "Above_730")) ∧
    rowA.p0_15_payments =
      round2 (payWindows inpA.env (payByC inpA.payments c.contact_id)).1 ∧
    rowA.p16_90_payments =
      round2 (payWindows inpA.env (payByC inpA.payments c.contact_id)).2 :=
  c3_balance_formula inpA "Acme" rowA inpA_summary

theorem round2_eval (x : ℚ) (k : ℤ) (h1 : (k : ℚ) ≤ (x + epsilonQ) * 100 + 1 / 2)
    (h2 : (x + epsilonQ) * 100 + 1 / 2 < (k : ℚ) + 1) :
    round2 x = (k : ℚ) / 100 := by
  unfold round2
  rw [round_eq]
  have hf : ⌊(x + epsilonQ) * 100 + 1 / 2⌋ = k := Int.floor_eq_iff.mpr ⟨h1, h2⟩
  rw [hf]

theorem cents_sum_identity (b : Nat → ℚ)
    (hcents : ∀ i, i < 11 → ∃ k : ℤ, b i = (k : ℚ) / 100) :
    round2 (b 0 + b 1 + b 2 + b 3 + b 4 + b 5 + b 6 + b 7 + b 8 + b 9 + b 10) =
      round2 (b 0) + round2 (b 1) + round2 (b 2) + round2 (b 3) +
      round2 (b 4) + round2 (b 5) + round2 (b 6) + round2 (b 7) +
      round2 (b 8) + round2 (b 9) + round2 (b 10) ∧
    round2 (b 8 + b 9 + b 10) =
      round2 (b 8) + round2 (b 9) + round2 (b 10) := by
  obtain ⟨k0, hk0⟩ := hcents 0 (by omega)
  obtain ⟨k1, hk1⟩ := hcents 1 (by omega)
  obtain ⟨k2, hk2⟩ := hcents 2 (by omega)
  obtain ⟨k3, hk3⟩ := hcents 3 (by omega)
  obtain ⟨k4, hk4⟩ := hcents 4 (by omega)
  obtain ⟨k5, hk5⟩ := hcents 5 (by omega)
  obtain ⟨k6, hk6⟩ := hcents 6 (by omega)
  obtain ⟨k7, hk7⟩ := hcents 7 (by omega)
  obtain ⟨k8, hk8⟩ := hcents 8 (by omega)
  obtain ⟨k9, hk9⟩ := hcents 9 (by omega)
  obtain ⟨k10, hk10⟩ := hcents 10 (by omega)
  rw [hk0, hk1, hk2, hk3, hk4, hk5, hk6, hk7, hk8, hk9, hk10]
  constructor
  · have hs : (k0 : ℚ) / 100 + k1 / 100 + k2 / 100 + k3 / 100 + k4 / 100 +
        k5 / 100 + k6 / 100 + k7 / 100 + k8 / 100 + k9 / 100 + k10 / 100 =
        ((k0 + k1 + k2 + k3 + k4 + k5 + k6 + k7 + k8 + k9 + k10 : ℤ) : ℚ) /
          100 := by
      push_cast
      ring
    rw [hs, round2_cents, round2_cents, round2_cents, round2_cents,
      round2_cents, round2_cents, round2_cents, round2_cents, round2_cents,
      round2_cents, round2_cents, round2_cents]
    push_cast
    ring
  · have hs : (k8 : ℚ) / 100 + k9 / 100 + k10 / 100 =
        ((k8 + k9 + k10 : ℤ) : ℚ) / 100 := by
      push_cast
      ring
    rw [hs, round2_cents, round2_cents, round2_cents, round2_cents]
    push_cast
    ring

/-- C2 (amended): the Total field is round2 of the raw (pre-rounding)
sum of the eleven bucket amounts, and Above_180 is round2 of the raw sum
of the three buckets covering 181 days and above; the field-level sum
identities of the claim hold whenever every bucket amount is an integer
number of cents. -/
theorem c2_amended_totals (inp : OutstandingInput) (n : String)
    (row : OutstandingCustomerRow)
    (hrow : recordGet (fetchOutstandingCore inp).summary n = some row) :
    ∃ c ∈ inp.contacts, c.contact_name = n ∧
      row.Total = round2 (contactBuckets inp c 0 + contactBuckets inp c 1 +
        contactBuckets inp c 2 + contactBuckets inp c 3 +
        contactBuckets inp c 4 + contactBuckets inp c 5 +
        contactBuckets inp c 6 + contactBuckets inp c 7 +
        contactBuckets inp c 8 + contactBuckets inp c 9 +
        contactBuckets inp c 10) ∧
      row.Above_180 = round2 (contactBuckets inp c 8 +
        contactBuckets inp c 9 + contactBuckets inp c 10) ∧
      ((∀ i < BUCKETS.length, ∃ k : ℤ,
          contactBuckets inp c i = (k : ℚ) / 100) →
        row.Total = row.b0_15 + row.b16_30 + row.b31_45 + row.b46_60 +
          row.b61_90 + row.b91_120 + row.b121_150 + row.b151_180 +
          row.b181_365 + row.b366_730 + row.bAbove_730 ∧
        row.Above_180 = row.b181_365 + row.b366_730 + row.bAbove_730) := by
  have hix0 : idxOfKey "0-15" = 0 := by decide
  have hix1 : idxOfKey "16-30" = 1 := by decide
  have hix2 : idxOfKey "31-45" = 2 := by decide
  have hix3 : idxOfKey "46-60" = 3 := by decide
  have hix4 : idxOfKey "61-90" = 4 := by decide
  have hix5 : idxOfKey "91-120" = 5 := by decide
  have hix6 : idxOfKey "121-150" = 6 := by decide
  have hix7 : idxOfKey "151-180" = 7 := by decide
  have hix8 : idxOfKey "181-365" = 8 := by decide
  have hix9 : idxOfKey "366-730" = 9 := by decide
  have hix10 : idxOfKey "Above_730" = 10 := by decide
  have hmem := recordGet_mem hrow
  rcases summary_mem inp inp.contacts ⟨[], []⟩ (n, row) hmem with h | h
  · cases h
  · obtain ⟨c, hc, hn, hr⟩ := h
    refine ⟨c, hc, hn, ?_⟩
    simp only [contactRow] at hr
    split_ifs at hr
    all_goals first
    | exact Option.noConfusion hr
    | (have heq := Option.some.inj hr
       subst heq
       simp only [hix0, hix1, hix2, hix3, hix4, hix5, hix6, hix7, hix8, hix9,
         hix10]
       refine ⟨by rw [totalOutOf_eq], by trivial, ?_⟩
       intro hcents
       have hcents' : ∀ i, i < 11 → ∃ k : ℤ,
           contactBuckets inp c i = (k : ℚ) / 100 := fun i hi => hcents i hi
       have hci := cents_sum_identity (contactBuckets inp c) hcents'
       constructor
       · show round2 (totalOutOf inp c) =
             round2 (contactBuckets inp c 0) + round2 (contactBuckets inp c 1) +
             round2 (contactBuckets inp c 2) + round2 (contactBuckets inp c 3) +
             round2 (contactBuckets inp c 4) + round2 (contactBuckets inp c 5) +
             round2 (contactBuckets inp c 6) + round2 (contactBuckets inp c 7) +
             round2 (contactBuckets inp c 8) + round2 (contactBuckets inp c 9) +
             round2 (contactBuckets inp c 10)
         rw [totalOutOf_eq]
         exact hci.1
       · show round2 (contactBuckets inp c 8 + contactBuckets inp c 9 +
             contactBuckets inp c 10) =
             round2 (contactBuckets inp c 8) + round2 (contactBuckets inp c 9) +
             round2 (contactBuckets inp c 10)
         exact hci.2)

/-- Witness for the amended C2 on the concrete input `inpA`. -/
theorem c2_amended_witness : ∃ c ∈ inpA.contacts, c.contact_name = "Acme" ∧
    rowA.Total = round2 (contactBuckets inpA c 0 + contactBuckets inpA c 1 +
      contactBuckets inpA c 2 + contactBuckets inpA c 3 +
      contactBuckets inpA c 4 + contactBuckets inpA c 5 +
      contactBuckets inpA c 6 + contactBuckets inpA c 7 +
      contactBuckets inpA c 8 + contactBuckets inpA c 9 +
      contactBuckets inpA c 10) ∧
    rowA.Above_180 = round2 (contactBuckets inpA c 8 +
      contactBuckets inpA c 9 + contactBuckets inpA c 10) ∧
    ((∀ i < BUCKETS.length, ∃ k : ℤ,
        contactBuckets inpA c i = (k : ℚ) / 100) →
      rowA.Total = rowA.b0_15 + rowA.b16_30 + rowA.b31_45 + rowA.b46_60 +
        rowA.b61_90 + rowA.b91_120 + rowA.b121_150 + rowA.b151_180 +
        rowA.b181_365 + rowA.b366_730 + rowA.bAbove_730 ∧
      rowA.Above_180 = rowA.b181_365 + rowA.b366_730 + rowA.bAbove_730) :=
  c2_amended_totals inpA "Acme" rowA inpA_summary

theorem round2_point004 : round2 (1 / 250 : ℚ) = 0 := by
  have h := round2_eval (1 / 250) 0 (by norm_num [epsilonQ]) (by norm_num [epsilonQ])
  simpa using h

theorem round2_point008 : round2 (1 / 125 : ℚ) = 1 / 100 := by
  have h := round2_eval (1 / 125) 1 (by norm_num [epsilonQ]) (by norm_num [epsilonQ])
  simpa using h

/-- Date environment parsing two day-stamps: "D1000" is today, "D980"
is 20 days ago. -/
def cEnv2 : DateEnv :=
  ⟨86400000 * 1000, fun s =>
    if s = "D980" then some (86400000 * 980)
    else if s = "D1000" then some (86400000 * 1000) else none⟩

/-- A contact with two open sub-cent invoices. -/
def cC : ZContact :=
  { contact_id := "C3", contact_name := "Sub", billing_city := none
    shipping_city := none, custom_fields := [] }

/-- An invoice dated today with sub-cent balance 0.004. -/
def invC1 : ZInvoice :=
  { invoice_id := some "I2", invoice_number := some "INV-2"
    customer_id := some "C3", contact_id := none, date := some "D1000"
    total := some (1 / 250), total_amount := none, amount := none
    balance := some (1 / 250), balance_amount := none
    outstanding_balance := none }

/-- An invoice dated 20 days ago with sub-cent balance 0.004. -/
def invC2 : ZInvoice :=
  { invoice_id := some "I3", invoice_number := some "INV-3"
    customer_id := some "C3", contact_id := none, date := some "D980"
    total := some (1 / 250), total_amount := none, amount := none
    balance := some (1 / 250), balance_amount := none
    outstanding_balance := none }

/-- Input with one contact and two sub-cent invoices in different
buckets. -/
def inpC : OutstandingInput :=
  { env := cEnv2, org := OrgKey.MURLI, contacts := [cC]
    openInvoices := [invC1, invC2], creditnotes := [], payments := []
    advances := [] }

theorem inpC_buckets : ∀ i, contactBuckets inpC cC i =
    if i = 0 then (0 : ℚ) + 1 / 250
    else if i = 1 then (0 : ℚ) + 1 / 250 else 0 := by
  have hinvC : invByC inpC.openInvoices cC.contact_id = [invC1, invC2] := by
    simp [invByC, inpC, invC1, invC2, cC, jsCid, jsOrSO]
  have hfold : contactBuckets inpC cC =
      applyInvoice cEnv2 (applyInvoice cEnv2 (fun _ => 0) invC1) invC2 := by
    unfold contactBuckets
    rw [hinvC]
    rfl
  have hparse1 : parseISO cEnv2 invC1.date = some (86400000 * 1000) := by decide
  have hparse2 : parseISO cEnv2 invC2.date = some (86400000 * 980) := by decide
  have hraw1 : rawBalanceOf invC1 = 1 / 250 := by
    simp [rawBalanceOf, invC1, totalAmountOf]
  have hraw2 : rawBalanceOf invC2 = 1 / 250 := by
    simp [rawBalanceOf, invC2, totalAmountOf]
  have hbal1 : (0 : ℚ) < rawBalanceOf invC1 := by
    rw [hraw1]
    norm_num
  have hbal2 : (0 : ℚ) < rawBalanceOf invC2 := by
    rw [hraw2]
    norm_num
  have h1 := applyInvoice_parsed cEnv2 (fun _ => 0) invC1 (86400000 * 1000)
    hparse1 hbal1
  have h2 := applyInvoice_parsed cEnv2 (applyInvoice cEnv2 (fun _ => 0) invC1)
    invC2 (86400000 * 980) hparse2 hbal2
  have hage1 : ageOf cEnv2 invC1 = 0 := by decide
  have hage2 : ageOf cEnv2 invC2 = 20 := by decide
  have hbix0 : bucketIndex 0 = 0 := by decide
  have hbix1 : bucketIndex 20 = 1 := by decide
  intro i
  rw [hfold, h2]
  simp only [hage2, hbix1, hraw2, h1, hage1, hbix0, hraw1]
  by_cases h0 : i = 0
  · subst h0
    norm_num
  · by_cases h1' : i = 1
    · subst h1'
      norm_num
    · simp [h0, h1']

theorem inpC_totalOut : totalOutOf inpC cC = 1 / 125 := by
  rw [totalOutOf_eq, inpC_buckets 0, inpC_buckets 1, inpC_buckets 2,
    inpC_buckets 3, inpC_buckets 4, inpC_buckets 5, inpC_buckets 6,
    inpC_buckets 7, inpC_buckets 8, inpC_buckets 9, inpC_buckets 10]
  norm_num

/-- The summary row the aggregation produces for `inpC`: the two
sub-cent bucket amounts each round to 0, while the raw total rounds to
one cent. -/
def rowC : OutstandingCustomerRow :=
  { customerName := "Sub", city := "", division := none, agency := none
    b0_15 := 0, b16_30 := 0, b31_45 := 0, b46_60 := 0, b61_90 := 0
    b91_120 := 0, b121_150 := 0, b151_180 := 0, b181_365 := 0, b366_730 := 0
    bAbove_730 := 0, Above_180 := 0, Total := 1 / 100, CN := 0, Payment := 0
    Balance := 1 / 100, p0_15_payments := 0, p16_90_payments := 0 }

theorem inpC_contactRow : contactRow inpC cC = some rowC := by
  have hix0 : idxOfKey "0-15" = 0 := by decide
  have hix1 : idxOfKey "16-30" = 1 := by decide
  have hix2 : idxOfKey "31-45" = 2 := by decide
  have hix3 : idxOfKey "46-60" = 3 := by decide
  have hix4 : idxOfKey "61-90" = 4 := by decide
  have hix5 : idxOfKey "91-120" = 5 := by decide
  have hix6 : idxOfKey "121-150" = 6 := by decide
  have hix7 : idxOfKey "151-180" = 7 := by decide
  have hix8 : idxOfKey "181-365" = 8 := by decide
  have hix9 : idxOfKey "366-730" = 9 := by decide
  have hix10 : idxOfKey "Above_730" = 10 := by decide
  have hcn : cnByC inpC.creditnotes cC.contact_id = 0 := rfl
  have hup : unusedPaySum (payByC inpC.payments cC.contact_id) = 0 := rfl
  have hua : unusedAdvSum (advByC inpC.advances cC.contact_id) = 0 := rfl
  have hpw1 : (payWindows inpC.env (payByC inpC.payments cC.contact_id)).1 = 0 := rfl
  have hpw2 : (payWindows inpC.env (payByC inpC.payments cC.contact_id)).2 = 0 := rfl
  simp only [contactRow, hix0, hix1, hix2, hix3, hix4, hix5, hix6, hix7, hix8,
    hix9, hix10, hcn, hup, hua, hpw1, hpw2, inpC_totalOut,
    inpC_buckets 0, inpC_buckets 1, inpC_buckets 2, inpC_buckets 3,
    inpC_buckets 4, inpC_buckets 5, inpC_buckets 6, inpC_buckets 7,
    inpC_buckets 8, inpC_buckets 9, inpC_buckets 10]
  rw [if_neg (by norm_num)]
  norm_num [rowC, round2_zero, round2_point004, round2_point008, groupMode,
    inpC, cC, firstCity, jsTrim]
  exact ⟨fun h => absurd h (by decide), fun h => absurd h (by decide)⟩

theorem inpC_summary :
    recordGet (fetchOutstandingCore inpC).summary "Sub" = some rowC := by
  show recordGet ((outStep inpC ⟨[], []⟩ cC)).summary "Sub" = some rowC
  unfold outStep
  rw [inpC_contactRow]
  rfl

/-- Counterexample to C2 as stated: on the input `inpC` the produced
row has Total = 0.01 but all eleven rounded bucket fields are 0, so the
Total field differs from the sum of the bucket fields. -/
theorem c2_counterexample :
    recordGet (fetchOutstandingCore inpC).summary "Sub" = some rowC ∧
    rowC.Total ≠ rowC.b0_15 + rowC.b16_30 + rowC.b31_45 + rowC.b46_60 +
      rowC.b61_90 + rowC.b91_120 + rowC.b121_150 + rowC.b151_180 +
      rowC.b181_365 + rowC.b366_730 + rowC.bAbove_730 :=
  ⟨inpC_summary, by norm_num [rowC]⟩

/-- A concrete invoice with an unparseable date and balance 7. -/
def c7Inv : ZInvoice :=
  { invoice_id := none, invoice_number := none, customer_id := none
    contact_id := none, date := some "not-a-date", total := none
    total_amount := none, amount := none, balance := some 7
    balance_amount := none, outstanding_balance := none }

/-- Witness for C7: the unparseable-date invoice lands in the first
bucket, and a future-dated parse is clamped to age 0. -/
theorem c7_witness :
    (bucketKeys[bucketIndex 0]? = some "0-15" ∧
      applyInvoice c1Env (fun _ => 0) c7Inv (bucketIndex 0) =
        (fun _ => (0 : ℚ)) (bucketIndex 0) + rawBalanceOf c7Inv ∧
      ∀ j, j ≠ bucketIndex 0 →
        applyInvoice c1Env (fun _ => 0) c7Inv j = (fun _ => (0 : ℚ)) j) ∧
    daysBetween 0 86400000 = ⌊((0 : ℚ) - (86400000 : ℚ)) / (24 * 3600 * 1000)⌋ :=
  ⟨c7_unparseable_and_future_dates.1 c1Env (fun _ => 0) c7Inv (by rfl)
      (by norm_num [rawBalanceOf, c7Inv, totalAmountOf]),
    c7_unparseable_and_future_dates.2.2 0 86400000⟩

theorem jsNumOr_zero (q : ℚ) : jsNumOr q 0 = q := by
  unfold jsNumOr
  split_ifs with h
  · exact h.symm
  · rfl

theorem recordGet_evPush_self (m : List (String × List SOStatusEvent))
    (k : String) (e : SOStatusEvent) :
    recordGet (evPush m k e) k = some ((recordGet m k).getD [] ++ [e]) :=
  recordGet_recordSet_self k _ m

theorem recordGet_evPush_ne (m : List (String × List SOStatusEvent))
    (k k' : String) (e : SOStatusEvent) (h : k' ≠ k) :
    recordGet (evPush m k e) k' = recordGet m k' :=
  recordGet_recordSet_ne k k' _ h m

theorem evStep_none {p : ZInvDetail × ZInvLine} (hk : soKeyOf p.2 = none)
    (m : List (String × List SOStatusEvent)) : evStep m p = m := by
  unfold evStep
  rw [hk]

theorem evStep_some {p : ZInvDetail × ZInvLine} {k' : String}
    (hk : soKeyOf p.2 = some k') (m : List (String × List SOStatusEvent)) :
    evStep m p = evPush m k' (mkEvent p.1 p.2) := by
  unfold evStep
  rw [hk]

theorem evFold_get (k : String) : ∀ (ps : List (ZInvDetail × ZInvLine))
    (m : List (String × List SOStatusEvent)),
    (recordGet (ps.foldl evStep m) k).getD [] =
      (recordGet m k).getD [] ++
        (ps.filter (fun p => soKeyOf p.2 == some k)).map
          (fun p => mkEvent p.1 p.2) := by
  intro ps
  induction ps with
  | nil =>
    intro m
    simp
  | cons p ps ih =>
    intro m
    rw [List.foldl_cons]
    cases hk : soKeyOf p.2 with
    | none =>
      rw [evStep_none hk]
      have hc : (soKeyOf p.2 == some k) = false := by simp [hk]
      rw [List.filter_cons, hc]
      simp only [Bool.false_eq_true, if_false]
      exact ih m
    | some k' =>
      rw [evStep_some hk]
      by_cases hkk : k' = k
      · subst hkk
        have hc : (soKeyOf p.2 == some k') = true := by simp [hk]
        rw [List.filter_cons, hc]
        simp only [if_true]
        rw [ih (evPush m k' (mkEvent p.1 p.2)), recordGet_evPush_self]
        simp
      · have hc : (soKeyOf p.2 == some k) = false := by simp [hk, hkk]
        rw [List.filter_cons, hc]
        simp only [Bool.false_eq_true, if_false]
        rw [ih (evPush m k' (mkEvent p.1 p.2)),
          recordGet_evPush_ne m k' k _ (fun he => hkk he.symm)]

theorem buildEvents_get (invFull : List ZInvDetail) (k : String) :
    (recordGet (buildEvents invFull) k).getD [] =
      ((invLinePairs invFull).filter (fun p => soKeyOf p.2 == some k)).map
        (fun p => mkEvent p.1 p.2) := by
  unfold buildEvents
  rw [evFold_get]
  rfl

theorem foldl_add_qty : ∀ (l : List SOStatusEvent) (a : ℚ),
    l.foldl (fun s e => s + jsNumOr e.qty 0) a =
      a + (l.map (fun e => e.qty)).sum := by
  intro l
  induction l with
  | nil =>
    intro a
    simp
  | cons e l ih =>
    intro a
    rw [List.foldl_cons, ih, jsNumOr_zero]
    simp
    ring

theorem evLe_trans : ∀ a b c : SOStatusEvent,
    evLe a b → evLe b c → evLe a c :=
  fun _ _ _ h1 h2 => lcLe_trans h1 h2

theorem evLe_total : ∀ a b : SOStatusEvent, evLe a b || evLe b a :=
  fun a b => lcLe_total (strOr a.date "") (strOr b.date "")

/-- C5: every enriched sales-order line has dispatched quantity equal to
the sum of the quantities of the invoice line items whose (first truthy
alias) sales-order-line id equals the line's key, and a line with no
linking invoice line has dispatched quantity 0 and no events. -/
theorem c5_dispatched_quantity (invFull : List ZInvDetail)
    (soFull : List ZSODetail) :
    ∀ so ∈ saleOrderStatusCore invFull soFull, ∀ line ∈ so.lines,
      line.dispQty = (((invLinePairs invFull).filter
        (fun p => soKeyOf p.2 == some line.salesorder_item_id)).map
          (fun p => safeNum p.2.quantity)).sum ∧
      ((invLinePairs invFull).filter
          (fun p => soKeyOf p.2 == some line.salesorder_item_id) = [] →
        line.dispQty = 0 ∧ line.events = []) := by
  intro so hso line hline
  unfold saleOrderStatusCore at hso
  obtain ⟨so0, hso0, rfl⟩ := List.mem_map.mp hso
  unfold mkStatusSO at hline
  simp only at hline
  obtain ⟨li, hli, rfl⟩ := List.mem_map.mp hline
  simp only [mkStatusLine]
  constructor
  · rw [jsNumOr_zero, foldl_add_qty, buildEvents_get]
    simp [List.map_map, Function.comp_def, mkEvent]
  · intro hempty
    constructor
    · rw [jsNumOr_zero, foldl_add_qty, buildEvents_get, hempty]
      simp
    · rw [buildEvents_get, hempty]
      simp

/-- C6: the event list attached to an enriched sales-order line is
sorted non-decreasing by event date, and any two linking events already
in comparator order in the fetch-order list (in particular any two with
equal dates) keep their relative order in the sorted output. -/
theorem c6_events_sorted_stable (invFull : List ZInvDetail)
    (soFull : List ZSODetail) :
    ∀ so ∈ saleOrderStatusCore invFull soFull, ∀ line ∈ so.lines,
      line.events.Pairwise (fun a b => evLe a b = true) ∧
      (∀ e1 e2 : SOStatusEvent,
        [e1, e2].Sublist (((invLinePairs invFull).filter
          (fun p => soKeyOf p.2 == some line.salesorder_item_id)).map
            (fun p => mkEvent p.1 p.2)) →
        evLe e1 e2 → [e1, e2].Sublist line.events) := by
  intro so hso line hline
  unfold saleOrderStatusCore at hso
  obtain ⟨so0, hso0, rfl⟩ := List.mem_map.mp hso
  unfold mkStatusSO at hline
  simp only at hline
  obtain ⟨li, hli, rfl⟩ := List.mem_map.mp hline
  simp only [mkStatusLine]
  constructor
  · exact List.sorted_mergeSort evLe_trans evLe_total _
  · intro e1 e2 hsub hle
    rw [← buildEvents_get] at hsub
    exact List.pair_sublist_mergeSort evLe_trans evLe_total hle hsub

/-- A concrete invoice line item linking to sales-order line "L1" with
quantity 5. -/
def liD : ZInvLine :=
  { quantity := some 5, name := some "W", salesorder_item_id := some "L1"
    salesorder_line_item_id := none, salesorderitem_id := none
    linked_salesorder_item_id := none, item_custom_fields := [] }

/-- A concrete hydrated invoice with the single line item `liD`. -/
def invD : ZInvDetail :=
  { invoice_id := "IV1", invoice_number := "N1", date := "2024-01-02"
    custom_fields := [], line_items := [liD] }

/-- A concrete sales-order line with id "L1". -/
def soLineD : ZSOLine :=
  { line_item_id := some "L1", salesorder_item_id := none
    salesorderlineitem_id := none, name := some "W", quantity := some 10
    item_custom_fields := [] }

/-- A concrete hydrated sales order with the single line `soLineD`. -/
def soD : ZSODetail :=
  { salesorder_id := "SO1", salesorder_number := "S1", date := "2024-01-01"
    customer_id := "C1", customer_name := "Acme", line_items := [soLineD] }

/-- Witness for C5 on the concrete one-invoice one-order input. -/
theorem c5_witness :
    (mkStatusLine (buildEvents [invD]) soLineD).dispQty =
      (((invLinePairs [invD]).filter (fun p => soKeyOf p.2 ==
        some (mkStatusLine (buildEvents [invD]) soLineD).salesorder_item_id)).map
          (fun p => safeNum p.2.quantity)).sum ∧
    ((invLinePairs [invD]).filter (fun p => soKeyOf p.2 ==
        some (mkStatusLine (buildEvents [invD]) soLineD).salesorder_item_id) = [] →
      (mkStatusLine (buildEvents [invD]) soLineD).dispQty = 0 ∧
      (mkStatusLine (buildEvents [invD]) soLineD).events = []) :=
  c5_dispatched_quantity [invD] [soD]
    (mkStatusSO (buildEvents [invD]) soD)
    (by simp [saleOrderStatusCore])
    (mkStatusLine (buildEvents [invD]) soLineD)
    (by simp [mkStatusSO, soD])

/-- Witness for C6 on the concrete one-invoice one-order input. -/
theorem c6_witness :
    (mkStatusLine (buildEvents [invD]) soLineD).events.Pairwise
      (fun a b => evLe a b = true) ∧
    (∀ e1 e2 : SOStatusEvent,
      [e1, e2].Sublist (((invLinePairs [invD]).filter
        (fun p => soKeyOf p.2 ==
          some (mkStatusLine (buildEvents [invD]) soLineD).salesorder_item_id)).map
            (fun p => mkEvent p.1 p.2)) →
      evLe e1 e2 →
      [e1, e2].Sublist (mkStatusLine (buildEvents [invD]) soLineD).events) :=
  c6_events_sorted_stable [invD] [soD]
    (mkStatusSO (buildEvents [invD]) soD)
    (by simp [saleOrderStatusCore])
    (mkStatusLine (buildEvents [invD]) soLineD)
    (by simp [mkStatusSO, soD])

/-- The waits slept over the first `k` attempts starting at `attempt`,
when every one of those attempts gets a retryable status. -/
def expectedWaits (responses : Nat → ZResp) : Nat → Nat → List ℚ
  | 0, _ => []
  | k + 1, attempt =>
    backoffWait (responses attempt).retryAfter attempt ::
      expectedWaits responses k (attempt + 1)

theorem zRetryable_not_ok (s : Nat) (h : zRetryable s = true) :
    respOk s = false := by
  simp only [zRetryable, Bool.or_eq_true, beq_iff_eq] at h
  simp only [respOk, decide_eq_false_iff_not]
  rcases h with h | h | h <;> omega

theorem zFetchGo_shift (label : String) (responses : Nat → ZResp) :
    ∀ (k fuel attempt : Nat), k ≤ fuel →
    (∀ i, attempt ≤ i → i < attempt + k →
      zRetryable (responses i).status = true) →
    zFetchGo label responses fuel attempt =
      ((zFetchGo label responses (fuel - k) (attempt + k)).1,
        expectedWaits responses k attempt ++
          (zFetchGo label responses (fuel - k) (attempt + k)).2) := by
  intro k
  induction k with
  | zero =>
    intro fuel attempt _ _
    simp [expectedWaits]
  | succ k ih =>
    intro fuel attempt hk hr
    cases fuel with
    | zero => omega
    | succ fuel =>
      have hr0 : zRetryable (responses attempt).status = true :=
        hr attempt le_rfl (by omega)
      have hok : respOk (responses attempt).status = false :=
        zRetryable_not_ok _ hr0
      have hstep : zFetchGo label responses (fuel + 1) attempt =
          ((zFetchGo label responses fuel (attempt + 1)).1,
            backoffWait (responses attempt).retryAfter attempt ::
              (zFetchGo label responses fuel (attempt + 1)).2) := by
        simp only [zFetchGo, hok, Bool.false_eq_true, if_false, hr0, if_true]
      rw [hstep, ih fuel (attempt + 1) (by omega)
        (fun i h1 h2 => hr i (by omega) (by omega))]
      have e1 : attempt + 1 + k = attempt + (k + 1) := by omega
      have e2 : fuel - k = fuel + 1 - (k + 1) := by omega
      rw [e1, e2]
      simp [expectedWaits]

/-- C8: the retry helper retries statuses 429/502/503 up to
`ZB_MAX_RETRIES` times, sleeping the Retry-After value when positive and
otherwise an exponentially growing delay capped at 10 seconds; a
non-retryable non-success status raises an error carrying the status
code and the body truncated to 140 characters; exhausting the retries
raises the too-many-retries error naming the request label. -/
theorem c8_retry_backoff (label : String) (responses : Nat → ZResp) :
    (∀ (ra : ℚ) (i : Nat), backoffWait ra i =
      if 0 < ra then ra * 1000 else min 10000 (1000 * (8 / 5) ^ (i + 1))) ∧
    (∀ l s b, ZError.message (ZError.http l s b) =
      l ++ " " ++ toString s ++ " - " ++ b) ∧
    (∀ l, ZError.message (ZError.tooManyRetries l) =
      l ++ " - too many retries") ∧
    ((∀ i, i ≤ ZB_MAX_RETRIES → zRetryable (responses i).status = true) →
      zFetchJSON label responses =
        (Except.error (ZError.tooManyRetries label),
          expectedWaits responses (ZB_MAX_RETRIES + 1) 0)) ∧
    (∀ k, k ≤ ZB_MAX_RETRIES →
      (∀ i, i < k → zRetryable (responses i).status = true) →
      respOk (responses k).status = false →
      zRetryable (responses k).status = false →
      zFetchJSON label responses =
        (Except.error (ZError.http label (responses k).status
          ((responses k).body.take 140)), expectedWaits responses k 0)) ∧
    (∀ k, k ≤ ZB_MAX_RETRIES →
      (∀ i, i < k → zRetryable (responses i).status = true) →
      respOk (responses k).status = true →
      zFetchJSON label responses =
        (Except.ok (responses k).payload, expectedWaits responses k 0)) := by
  refine ⟨fun ra i => rfl, fun l s b => rfl, fun l => rfl, ?_, ?_, ?_⟩
  · intro hall
    unfold zFetchJSON
    rw [zFetchGo_shift label responses (ZB_MAX_RETRIES + 1) (ZB_MAX_RETRIES + 1)
      0 le_rfl (fun i h1 h2 => hall i (by omega))]
    simp [zFetchGo]
  · intro k hk hpre hok hnr
    unfold zFetchJSON
    rw [zFetchGo_shift label responses k (ZB_MAX_RETRIES + 1) 0 (by omega)
      (fun i h1 h2 => hpre i (by omega))]
    have hfuel : ∃ f, ZB_MAX_RETRIES + 1 - k = f + 1 :=
      ⟨ZB_MAX_RETRIES - k, by omega⟩
    obtain ⟨f, hf⟩ := hfuel
    rw [hf]
    simp only [zFetchGo, zero_add, hok, Bool.false_eq_true, if_false, hnr]
    simp
  · intro k hk hpre hok
    unfold zFetchJSON
    rw [zFetchGo_shift label responses k (ZB_MAX_RETRIES + 1) 0 (by omega)
      (fun i h1 h2 => hpre i (by omega))]
    have hfuel : ∃ f, ZB_MAX_RETRIES + 1 - k = f + 1 :=
      ⟨ZB_MAX_RETRIES - k, by omega⟩
    obtain ⟨f, hf⟩ := hfuel
    rw [hf]
    simp only [zFetchGo, zero_add, hok, if_true]
    simp

/-- A network that always answers 429 with no Retry-After header. -/
def resp429 : Nat → ZResp := fun _ => ⟨429, 0, "", ""⟩

/-- Witness for C8: seven straight 429 responses exhaust the retry
budget and raise the too-many-retries error. -/
theorem c8_witness :
    zFetchJSON "SO detail" resp429 =
      (Except.error (ZError.tooManyRetries "SO detail"),
        expectedWaits resp429 (ZB_MAX_RETRIES + 1) 0) :=
  (c8_retry_backoff "SO detail" resp429).2.2.2.1
    (fun i _ => (by decide : zRetryable 429 = true))

/-- Counterexample to C8 as stated: exhausting the retries raises an
error whose message names only the request label; it carries neither
the status code nor any response body. -/
theorem c8_counterexample :
    (zFetchJSON "SO detail" resp429).1 =
      Except.error (ZError.tooManyRetries "SO detail") ∧
    ZError.message (ZError.tooManyRetries "SO detail") =
      "SO detail - too many retries" ∧
    strContains (ZError.message (ZError.tooManyRetries "SO detail"))
      "429" = false := by
  refine ⟨rfl, rfl, by decide⟩

theorem paged_error_at {α : Type} (baseUrl : String) :
    ∀ (pre : List (PageResp α)) (p : PageResp α) (rest : List (PageResp α)),
      (∀ q ∈ pre, respOk q.status = true ∧ q.has_more_page = true) →
      respOk p.status = false →
      paged baseUrl (pre ++ p :: rest) =
        Except.error (if p.status == 404 then "404"
          else baseUrl ++ " " ++ toString p.status) := by
  intro pre
  induction pre with
  | nil =>
    intro p rest _ hbad
    rw [List.nil_append]
    by_cases h404 : p.status = 404
    · have hb : (p.status == 404) = true := by simpa using h404
      simp [paged, hb]
    · have hb : (p.status == 404) = false := by simpa using h404
      simp [paged, hb, hbad]
  | cons q pre ih =>
    intro p rest hpre hbad
    obtain ⟨hok, hmore⟩ := hpre q (List.mem_cons_self q pre)
    have hq404 : (q.status == 404) = false := by
      simp only [beq_eq_false_iff_ne, ne_eq]
      intro h
      rw [h] at hok
      exact absurd hok (by decide)
    rw [List.cons_append]
    simp only [paged, hq404, Bool.false_eq_true, if_false, hok,
      not_true_eq_false, hmore, if_true]
    rw [ih p rest (fun q' hq' => hpre q' (List.mem_cons_of_mem q hq')) hbad]
    rfl

/-- C9 (amended): a failing mandatory paginated fetch aborts the whole
aggregation with an error that carries the status code, and that names
the failing resource url except for status 404, where the error is the
bare string "404"; failure of the advance-payments endpoint falls back
to the retainer-invoices endpoint, and if that also fails advances are
an empty list and the aggregation continues. -/
theorem c9_fetch_failure_semantics :
    (∀ (α : Type) (baseUrl : String) (pre : List (PageResp α))
      (p : PageResp α) (rest : List (PageResp α)),
      (∀ q ∈ pre, respOk q.status = true ∧ q.has_more_page = true) →
      respOk p.status = false →
      paged baseUrl (pre ++ p :: rest) =
        Except.error (if p.status == 404 then "404"
          else baseUrl ++ " " ++ toString p.status)) ∧
    (∀ (pg : OutstandingPages) (e : String),
      paged (BOOKS_BASE ++ "/contacts") pg.contacts = Except.error e →
      fetchPhase pg = Except.error e) ∧
    (∀ (pg : OutstandingPages) cs (e : String),
      paged (BOOKS_BASE ++ "/contacts") pg.contacts = Except.ok cs →
      paged (BOOKS_BASE ++ "/invoices") pg.invoicesDraft = Except.error e →
      fetchPhase pg = Except.error e) ∧
    (∀ (pg : OutstandingPages) cs i1 (e : String),
      paged (BOOKS_BASE ++ "/contacts") pg.contacts = Except.ok cs →
      paged (BOOKS_BASE ++ "/invoices") pg.invoicesDraft = Except.ok i1 →
      paged (BOOKS_BASE ++ "/invoices") pg.invoicesUnpaid = Except.error e →
      fetchPhase pg = Except.error e) ∧
    (∀ (pg : OutstandingPages) cs i1 i2 (e : String),
      paged (BOOKS_BASE ++ "/contacts") pg.contacts = Except.ok cs →
      paged (BOOKS_BASE ++ "/invoices") pg.invoicesDraft = Except.ok i1 →
      paged (BOOKS_BASE ++ "/invoices") pg.invoicesUnpaid = Except.ok i2 →
      paged (BOOKS_BASE ++ "/creditnotes") pg.creditnotes = Except.error e →
      fetchPhase pg = Except.error e) ∧
    (∀ (pg : OutstandingPages) cs i1 i2 cns (e : String),
      paged (BOOKS_BASE ++ "/contacts") pg.contacts = Except.ok cs →
      paged (BOOKS_BASE ++ "/invoices") pg.invoicesDraft = Except.ok i1 →
      paged (BOOKS_BASE ++ "/invoices") pg.invoicesUnpaid = Except.ok i2 →
      paged (BOOKS_BASE ++ "/creditnotes") pg.creditnotes = Except.ok cns →
      paged (BOOKS_BASE ++ "/customerpayments") pg.payments = Except.error e →
      fetchPhase pg = Except.error e) ∧
    (∀ (pg : OutstandingPages) cs i1 i2 cns ps (e : String) l,
      paged (BOOKS_BASE ++ "/contacts") pg.contacts = Except.ok cs →
      paged (BOOKS_BASE ++ "/invoices") pg.invoicesDraft = Except.ok i1 →
      paged (BOOKS_BASE ++ "/invoices") pg.invoicesUnpaid = Except.ok i2 →
      paged (BOOKS_BASE ++ "/creditnotes") pg.creditnotes = Except.ok cns →
      paged (BOOKS_BASE ++ "/customerpayments") pg.payments = Except.ok ps →
      paged (BOOKS_BASE ++ "/customeradvancepayments") pg.advancepayments =
        Except.error e →
      paged (BOOKS_BASE ++ "/retainerinvoices") pg.retainerinvoices =
        Except.ok l →
      fetchPhase pg = Except.ok (cs, i1 ++ i2, cns, ps, l)) ∧
    (∀ (pg : OutstandingPages) cs i1 i2 cns ps (e e' : String),
      paged (BOOKS_BASE ++ "/contacts") pg.contacts = Except.ok cs →
      paged (BOOKS_BASE ++ "/invoices") pg.invoicesDraft = Except.ok i1 →
      paged (BOOKS_BASE ++ "/invoices") pg.invoicesUnpaid = Except.ok i2 →
      paged (BOOKS_BASE ++ "/creditnotes") pg.creditnotes = Except.ok cns →
      paged (BOOKS_BASE ++ "/customerpayments") pg.payments = Except.ok ps →
      paged (BOOKS_BASE ++ "/customeradvancepayments") pg.advancepayments =
        Except.error e →
      paged (BOOKS_BASE ++ "/retainerinvoices") pg.retainerinvoices =
        Except.error e' →
      fetchPhase pg = Except.ok (cs, i1 ++ i2, cns, ps, [])) := by
  refine ⟨fun α => paged_error_at, ?_, ?_, ?_, ?_, ?_, ?_, ?_⟩
  · intro pg e hc
    unfold fetchPhase
    rw [hc]
    rfl
  · intro pg cs e hc h1
    unfold fetchPhase
    rw [hc, h1]
    rfl
  · intro pg cs i1 e hc h1 h2
    unfold fetchPhase
    rw [hc, h1, h2]
    rfl
  · intro pg cs i1 i2 e hc h1 h2 h3
    unfold fetchPhase
    rw [hc, h1, h2, h3]
    rfl
  · intro pg cs i1 i2 cns e hc h1 h2 h3 h4
    unfold fetchPhase
    rw [hc, h1, h2, h3, h4]
    rfl
  · intro pg cs i1 i2 cns ps e l hc h1 h2 h3 h4 ha hr
    unfold fetchPhase
    rw [hc, h1, h2, h3, h4, ha, hr]
    rfl
  · intro pg cs i1 i2 cns ps e e' hc h1 h2 h3 h4 ha hr
    unfold fetchPhase
    rw [hc, h1, h2, h3, h4, ha, hr]
    rfl

/-- Page streams where the contacts endpoint answers 404 and every
other endpoint would answer an empty last page. -/
def pg404 : OutstandingPages :=
  { contacts := [⟨404, [], false⟩], invoicesDraft := [⟨200, [], false⟩]
    invoicesUnpaid := [⟨200, [], false⟩], creditnotes := [⟨200, [], false⟩]
    payments := [⟨200, [], false⟩], advancepayments := [⟨200, [], false⟩]
    retainerinvoices := [⟨200, [], false⟩] }

/-- Counterexample to C9 as stated: a 404 from the contacts fetch
aborts the aggregation with the bare error message "404", which does
not identify the failing resource. -/
theorem c9_counterexample :
    fetchPhase pg404 = Except.error "404" ∧
    strContains "404" "contacts" = false := by
  constructor
  · rfl
  · decide

/-- Witness for C9 on concrete page streams: the error shape of a
non-404 failure, and the 404 shape, from the paged characterization. -/
theorem c9_witness :
    paged (BOOKS_BASE ++ "/contacts")
        ([] ++ (⟨500, ([] : List ZContact), false⟩ : PageResp ZContact) :: []) =
      Except.error (if (500 : Nat) == 404 then "404"
        else (BOOKS_BASE ++ "/contacts") ++ " " ++ toString (500 : Nat)) ∧
    fetchPhase pg404 = Except.error "404" :=
  ⟨c9_fetch_failure_semantics.1 ZContact (BOOKS_BASE ++ "/contacts") []
      ⟨500, [], false⟩ [] (fun q hq => absurd hq (by simp)) (by decide),
    c9_fetch_failure_semantics.2.1 pg404 "404" (by rfl)⟩

end Zoho
